import Mathlib

/-!
# Formal model of the libmburs M-Bus decoder

A shallow embedding of the parsing pipeline of the `libmburs` repository
(`src/parse/...`).  Byte streams are modelled as `List Nat` (each element a
byte value); every Rust parser of type `&mut &Bytes -> MBResult<T>` becomes a
Lean function `List Nat → MBRes (T × List Nat)` returning the parsed value and
the unconsumed remainder.  Bit-granularity fields inside a byte are extracted
with explicit division/modulo arithmetic (MSB first, as `winnow::binary::bits`
does).  Machine integers are modelled as `Nat`/`Int`; wrapping u8 addition is
`(a + b) % 256`.

Error model: the Rust code distinguishes three observable failure behaviours,
mirrored by `MBErr`:
* `fail ctxs` — a recoverable `winnow` parse error; `ctxs` is the list of
  `StrContext::Label` strings attached to the error, innermost label first
  (exactly the order `MBusError::context()` yields them, which is what the
  repository's own tests inspect).
* `assertFail msg` — an error produced through `ParserError::assert`
  (a panic in debug builds, an error value in release builds); `msg` is the
  assertion message.
* `crash msg` — an unconditional Rust panic (`todo!` or an arithmetic
  underflow), which is never a returned error.
-/

inductive MBErr where
  | fail (ctxs : List String)
  | assertFail (msg : String)
  | crash (msg : String)
  deriving DecidableEq, Repr

abbrev MBRes (α : Type) := Except MBErr α

/-- Attach a `StrContext::Label` to a recoverable parse error (the label ends
up outermost, i.e. at the tail of the context list).  Assertion failures and
panics pass through untouched. -/
def ctxLabel (label : String) (r : MBRes α) : MBRes α :=
  match r with
  | .error (.fail ls) => .error (.fail (ls ++ [label]))
  | other => other

/-- Bit field of width `width` starting at bit `lo` (LSB = bit 0) of a byte.
For `lo + width ≤ 8` this only sees the low 8 bits of `b`, so it agrees with
u8 semantics even on out-of-range list elements. -/
def u8bits (lo width b : Nat) : Nat := (b / 2 ^ lo) % 2 ^ width

/-- Bit `i` of a byte, as a Bool. -/
def u8bit (i b : Nat) : Bool := u8bits i 1 b = 1

/-- Wrapping u8 addition (`u8::wrapping_add`). -/
def wadd (a b : Nat) : Nat := (a + b) % 256

/-! ## `src/parse/application_layer/dib.rs` -/

/-- `RawDataType` (dib.rs): the DIF data-field nibble decoded. -/
inductive RawDataType where
  | None
  | Binary (n : Nat)
  | Real
  | BCD (n : Nat)
  | LVAR
  deriving DecidableEq, Repr

/-- `RawDataType::parse` (dib.rs lines 21–37): 4-bit field via `verify_map`;
nibbles `0b1000` and `0b1111` are rejected. -/
def RawDataType.ofNibble (value : Nat) : Option RawDataType :=
  if value = 0b0000 then some .None
  else if (0b0001 ≤ value ∧ value ≤ 0b0100) ∨ value = 0b0110 then some (.Binary value)
  else if value = 0b0111 then some (.Binary 8)
  else if value = 0b1001 ∨ value = 0b1010 ∨ value = 0b1011 ∨ value = 0b1100 ∨ value = 0b1110 then
    some (.BCD (value - 0b1000))
  else if value = 0b0101 then some .Real
  else if value = 0b1101 then some .LVAR
  else none

/-- `DataFunction` (dib.rs). -/
inductive DataFunction where
  | InstantaneousValue
  | MaximumValue
  | MinimumValue
  | ValueDuringErrorState
  deriving DecidableEq, Repr

/-- `DataFunction::parse` (dib.rs lines 49–59): a total 2-bit decode. -/
def DataFunction.ofBits (value : Nat) : DataFunction :=
  if value = 0b00 then .InstantaneousValue
  else if value = 0b01 then .MaximumValue
  else if value = 0b10 then .MinimumValue
  else .ValueDuringErrorState

/-- `DataInfoBlock` (dib.rs). -/
structure DataInfoBlock where
  raw_type : RawDataType
  function : DataFunction
  storage : Nat
  tariff : Nat
  device : Nat
  is_obis : Bool
  deriving DecidableEq, Repr

/-- The DIFE `while extension` loop of `DataInfoBlock::parse` (dib.rs lines
95–128).  `i` is the running chain counter (starting at 1); each iteration
consumes one DIFE byte `{extension(1), device(1), tariff(2), storage(4)}`.
The `i > 10` assertion fires before a byte is read.  A terminal all-zero DIFE
with the extension bit clear sets `is_obis` without accumulating. -/
def difeLoop (input : List Nat) (i storage tariff device : Nat) :
    MBRes ((Nat × Nat × Nat × Bool) × List Nat) :=
  if i > 10 then .error (.assertFail "Packet has more than 10 DIFEs!")
  else
    match input with
    | [] => .error (.fail ["DIFE byte"])
    | b :: rest =>
      let ext := u8bit 7 b
      let dife_device := u8bits 6 1 b
      let dife_tariff := u8bits 4 2 b
      let dife_storage := u8bits 0 4 b
      if ext = false ∧ dife_device = 0 ∧ dife_tariff = 0 ∧ dife_storage = 0 then
        .ok ((storage, tariff, device, true), rest)
      else
        let storage' := storage + dife_storage * 2 ^ (4 * i)
        let tariff' := tariff + dife_tariff * 2 ^ (2 * i)
        let device' := device + dife_device * 2 ^ i
        if ext then difeLoop rest (i + 1) storage' tariff' device'
        else .ok ((storage', tariff', device', false), rest)

/-- `DataInfoBlock::parse` (dib.rs lines 81–138).  DIF byte layout
`{extension(1), storage_lsb(1), function(2), raw_type(4)}`, then the DIFE
loop while the extension bit is set. -/
def DataInfoBlock.parse (input : List Nat) : MBRes (DataInfoBlock × List Nat) :=
  match input with
  | [] => .error (.fail ["DIF byte"])
  | b :: rest =>
    let ext := u8bit 7 b
    let storage := u8bits 6 1 b
    let function := DataFunction.ofBits (u8bits 4 2 b)
    match RawDataType.ofNibble (u8bits 0 4 b) with
    | none => .error (.fail ["raw data type", "DIF byte"])
    | some raw_type =>
      if ext then
        match difeLoop rest 1 storage 0 0 with
        | .error e => .error e
        | .ok ((storage, tariff, device, is_obis), rest') =>
          .ok (⟨raw_type, function, storage, tariff, device, is_obis⟩, rest')
      else
        .ok (⟨raw_type, function, storage, 0, 0, false⟩, rest)

/-! ## `src/parse/application_layer/vib.rs` — types -/

/-- `VIFTable` (vib.rs). -/
inductive VIFTable where
  | Table10
  | Table12
  | Table13
  | Table14
  deriving DecidableEq, Repr

/-- `DurationType` (vib.rs). -/
inductive DurationType where
  | Seconds
  | Minutes
  | Hours
  | Days
  | Months
  | Years
  deriving DecidableEq, Repr

/-- `DurationType::decode_nn` (vib.rs lines 301–309). -/
def DurationType.decode_nn (value : Nat) : DurationType :=
  if value % 4 = 0 then .Seconds
  else if value % 4 = 1 then .Minutes
  else if value % 4 = 2 then .Hours
  else .Days

/-- `DurationType::decode_pp` (vib.rs lines 311–319). -/
def DurationType.decode_pp (value : Nat) : DurationType :=
  if value % 4 = 0 then .Hours
  else if value % 4 = 1 then .Days
  else if value % 4 = 2 then .Months
  else .Years

/-- `EnergyUnit` (vib.rs). -/
inductive EnergyUnit where
  | Wh
  | J
  | MWh
  | MCal
  | GJ
  deriving DecidableEq, Repr

/-- `PowerUnit` (vib.rs). -/
inductive PowerUnit where
  | W
  | Jph
  | MW
  | GJph
  deriving DecidableEq, Repr

/-- `VolumeUnit` (vib.rs). -/
inductive VolumeUnit where
  | M3
  | Feet3
  deriving DecidableEq, Repr

/-- `MassUnit` (vib.rs). -/
inductive MassUnit where
  | Kg
  | T
  deriving DecidableEq, Repr

/-- `Exponent` (vib.rs): an `i8` decimal exponent. -/
abbrev Exponent := Int

/-- `ValueType` (vib.rs lines 353–469).  One extra constructor,
`VariableDateTime`, is required by the crate: `record.rs` pattern-matches on
`ValueType::VariableDateTime` in `handle_date_types`, so the enum must carry
it for the code to compile (the snapshot's enum declaration omits it).
`PlainText` carries the decoded characters as a list of Unicode code points
(already reversed, as the Rust code reverses them). -/
inductive ValueType where
  | Any
  | PlainText (s : List Nat)
  | ManufacturerSpecific
  | RetiredCode (t : VIFTable) (raw : Nat)
  | ReservedCode (t : VIFTable) (raw : Nat)
  | Invalid (raw : Nat)
  | Energy (u : EnergyUnit) (e : Exponent)
  | Volume (u : VolumeUnit) (e : Exponent)
  | Mass (u : MassUnit) (e : Exponent)
  | OnTime (d : DurationType)
  | OperatingTime (d : DurationType)
  | Power (u : PowerUnit) (e : Exponent)
  | VolumeFlow (d : DurationType) (e : Exponent)
  | MassFlow (d : DurationType) (e : Exponent)
  | FlowTemperature (e : Exponent)
  | ReturnTemperature (e : Exponent)
  | TemperatureDifference (e : Exponent)
  | ExternalTemperature (e : Exponent)
  | Pressure (e : Exponent)
  | TypeGDate
  | TypeFDateTime
  | TypeJTime
  | TypeIDateTime
  | TypeMDatetime
  | VariableDateTime
  | HCA
  | AveragingDuration (d : DurationType)
  | ActualityDuration (d : DurationType)
  | FabricationNumber
  | EnhancedIdentification
  | Address
  | Credit (e : Exponent)
  | Debit (e : Exponent)
  | UniqueMessageIdentification
  | DeviceType
  | Manufacturer
  | ParameterSetIdentification
  | ModelVersion
  | HardwareVersionNumber
  | MetrologyFirmwareVersionNumber
  | OtherSoftwareVersionNumber
  | CustomerLocation
  | Customer
  | AccessCodeUser
  | AccessCodeOperator
  | AccessCodeSystemOperator
  | AccessCodeDeveloper
  | Password
  | ErrorFlags
  | ErrorMask
  | SecurityKey
  | DigitalOutput
  | DigitalInput
  | BaudRate
  | ResponseDelayTime
  | Retry
  | RemoteControl
  | FirstStorageNumberForCyclicStorage
  | LastStorageNumberForCyclicStorage
  | SizeOfStorageBlock
  | DescriptorForTariffAndSubunit
  | StorageInterval (d : DurationType)
  | OperatorSpecific
  | TimePointSecond
  | DurationSinceLastReadout (d : DurationType)
  | StartDateTimeOfTariff
  | DurationOfTariff (d : DurationType)
  | PeriodOfTarrif (d : DurationType)
  | Dimensionless
  | WirelessContainer
  | PeriodOfNominalDataTransmissions (d : DurationType)
  | Volts (e : Exponent)
  | Amperes (e : Exponent)
  | ResetCounter
  | CumulationCounter
  | ControlSignal
  | DayOfWeek
  | WeekNumber
  | TimePointOfDayChange
  | StateOfParameterActivation
  | SpecialSupplierInformation
  | DurationSinceLastCumulation (d : DurationType)
  | OperatingTimeBattery (d : DurationType)
  | DateAndTimeOfBatteryChange
  | RFLevel
  | DSTTypeK
  | ListeningWindowManagement
  | RemainingBatteryLife (d : DurationType)
  | NumberTimesMeterStopped
  | ManufacturerSpecificContainer
  | CurrentlySelectedApplication
  | ReactiveEnergy (e : Exponent)
  | ApparentEnergy (e : Exponent)
  | ReactivePower (e : Exponent)
  | RelativeHumidity (e : Exponent)
  | PhaseUU
  | PhaseUI
  | Frequency (e : Exponent)
  | ApparentPower (e : Exponent)
  | ColdWarmTemperatureLimit (e : Exponent)
  | CumulativeMaxOfActivePower (e : Exponent)
  | ResultingPowerFactorK
  | ThermalOutputRatingFactorKq
  | ThermalCouplingRatingFactorOverallKc
  | ThermalCouplingRatingFactorRoomSideKcr
  | ThermalCouplingRatingFactorHeaterSideKch
  | LowTemperatureRatingFactorKt
  | DisplayOutputScalingFactorKD

/-- Mask constants (vib.rs lines 20–24). -/
def MASK_N : Nat := 0x01
def MASK_NN : Nat := 0x03
def MASK_NNN : Nat := 0x07
def MASK_NNNN : Nat := 0x0F

/-- `exp` (vib.rs lines 129–131): `(value & mask) as i8 + offset`. -/
def expVIF (mask value : Nat) (offset : Int) : Exponent :=
  ((value &&& mask : Nat) : Int) + offset

/-- `parse_table_10` (vib.rs lines 133–162): the primary VIF table.  The Rust
`vif!(Exxx ynnn)` macro expands to the inclusive range obtained by wildcarding
the trailing `n`/`p` bits; each arm below carries that range explicitly.
The date codes 0x6C–0x6D are commented out in the source
(`"dates go here"`) and mapped to `Any`. -/
def parse_table_10 (value : Nat) : ValueType :=
  if value ≤ 0x07 then .Energy .Wh (expVIF MASK_NNN value (-3))
  else if value ≤ 0x0F then .Energy .J (expVIF MASK_NNN value 0)
  else if value ≤ 0x17 then .Volume .M3 (expVIF MASK_NNN value (-6))
  else if value ≤ 0x1F then .Mass .Kg (expVIF MASK_NNN value (-3))
  else if value ≤ 0x23 then .OnTime (DurationType.decode_nn value)
  else if value ≤ 0x27 then .OperatingTime (DurationType.decode_nn value)
  else if value ≤ 0x2F then .Power .W (expVIF MASK_NNN value (-3))
  else if value ≤ 0x37 then .Power .Jph (expVIF MASK_NNN value 0)
  else if value ≤ 0x3F then .VolumeFlow .Hours (expVIF MASK_NNN value (-6))
  else if value ≤ 0x47 then .VolumeFlow .Minutes (expVIF MASK_NNN value (-7))
  else if value ≤ 0x4F then .VolumeFlow .Seconds (expVIF MASK_NNN value (-9))
  else if value ≤ 0x57 then .MassFlow .Hours (expVIF MASK_NNN value (-3))
  else if value ≤ 0x5B then .FlowTemperature (expVIF MASK_NN value (-3))
  else if value ≤ 0x5F then .ReturnTemperature (expVIF MASK_NN value (-3))
  else if value ≤ 0x63 then .TemperatureDifference (expVIF MASK_NN value (-3))
  else if value ≤ 0x67 then .ExternalTemperature (expVIF MASK_NN value (-3))
  else if value ≤ 0x6B then .Pressure (expVIF MASK_NN value (-3))
  else if value ≤ 0x6D then .Any
  else if value = 0x6E then .HCA
  else if 0x70 ≤ value ∧ value ≤ 0x73 then .AveragingDuration (DurationType.decode_nn value)
  else if 0x74 ≤ value ∧ value ≤ 0x77 then .ActualityDuration (DurationType.decode_nn value)
  else if value = 0x78 then .FabricationNumber
  else if value = 0x79 then .EnhancedIdentification
  else if value = 0x7A then .Address
  else .ReservedCode .Table10 value

/-- `parse_table_12` (vib.rs lines 164–235): the main VIFE-code extension
table, reached from VIF extension byte 0x7D (`VIF_EXTENSION_2`). -/
def parse_table_12 (value : Nat) : ValueType :=
  if value ≤ 0x03 then .Credit (expVIF MASK_NN value (-3))
  else if value ≤ 0x07 then .Debit (expVIF MASK_NN value (-3))
  else if value = 0x08 then .UniqueMessageIdentification
  else if value = 0x09 then .DeviceType
  else if value = 0x0A then .Manufacturer
  else if value = 0x0B then .ParameterSetIdentification
  else if value = 0x0C then .ModelVersion
  else if value = 0x0D then .HardwareVersionNumber
  else if value = 0x0E then .MetrologyFirmwareVersionNumber
  else if value = 0x0F then .OtherSoftwareVersionNumber
  else if value = 0x10 then .CustomerLocation
  else if value = 0x11 then .Customer
  else if value = 0x12 then .AccessCodeUser
  else if value = 0x13 then .AccessCodeOperator
  else if value = 0x14 then .AccessCodeSystemOperator
  else if value = 0x15 then .AccessCodeDeveloper
  else if value = 0x16 then .Password
  else if value = 0x17 then .ErrorFlags
  else if value = 0x18 then .ErrorMask
  else if value = 0x19 then .SecurityKey
  else if value = 0x1A then .DigitalOutput
  else if value = 0x1B then .DigitalInput
  else if value = 0x1C then .BaudRate
  else if value = 0x1D then .ResponseDelayTime
  else if value = 0x1E then .Retry
  else if value = 0x1F then .RemoteControl
  else if value = 0x20 then .FirstStorageNumberForCyclicStorage
  else if value = 0x21 then .LastStorageNumberForCyclicStorage
  else if value = 0x22 then .SizeOfStorageBlock
  else if value = 0x23 then .DescriptorForTariffAndSubunit
  else if value ≤ 0x27 then .StorageInterval (DurationType.decode_nn value)
  else if value = 0x28 then .StorageInterval .Months
  else if value = 0x29 then .StorageInterval .Years
  else if value = 0x2A then .OperatorSpecific
  else if value = 0x2B then .TimePointSecond
  else if value ≤ 0x2F then .DurationSinceLastReadout (DurationType.decode_nn value)
  else if value = 0x30 then .StartDateTimeOfTariff
  else if value ≤ 0x33 then .DurationOfTariff (DurationType.decode_nn value)
  else if value ≤ 0x37 then .PeriodOfTarrif (DurationType.decode_nn value)
  else if value = 0x38 then .PeriodOfTarrif .Months
  else if value = 0x39 then .PeriodOfTarrif .Years
  else if value = 0x3A then .Dimensionless
  else if value = 0x3B then .WirelessContainer
  else if value ≤ 0x3F then .PeriodOfNominalDataTransmissions (DurationType.decode_nn value)
  else if value ≤ 0x4F then .Volts (expVIF MASK_NNNN value (-9))
  else if value ≤ 0x5F then .Amperes (expVIF MASK_NNNN value (-12))
  else if value = 0x60 then .ResetCounter
  else if value = 0x61 then .CumulationCounter
  else if value = 0x62 then .ControlSignal
  else if value = 0x63 then .DayOfWeek
  else if value = 0x64 then .WeekNumber
  else if value = 0x65 then .TimePointOfDayChange
  else if value = 0x66 then .StateOfParameterActivation
  else if value = 0x67 then .SpecialSupplierInformation
  else if value ≤ 0x6B then .DurationSinceLastCumulation (DurationType.decode_pp value)
  else if value ≤ 0x6F then .OperatingTimeBattery (DurationType.decode_pp value)
  else if value = 0x70 then .DateAndTimeOfBatteryChange
  else if value = 0x71 then .RFLevel
  else if value = 0x72 then .DSTTypeK
  else if value = 0x73 then .ListeningWindowManagement
  else if value = 0x74 then .RemainingBatteryLife .Days
  else if value = 0x75 then .NumberTimesMeterStopped
  else if value = 0x76 then .ManufacturerSpecificContainer
  else .ReservedCode .Table12 value

/-- `parse_table_13` (vib.rs lines 237–244): the 2nd-level VIFE extension
table, reached via the byte sequence 0x7D, 0x7D. -/
def parse_table_13 (value : Nat) : ValueType :=
  if value = 0x00 then .CurrentlySelectedApplication
  else if value = 0x02 then .RemainingBatteryLife .Months
  else if value = 0x03 then .RemainingBatteryLife .Years
  else .ReservedCode .Table13 value

/-- `parse_table_14` (vib.rs lines 246–280): the alternate extended VIF-code
table, reached from VIF extension byte 0x7B (`VIF_EXTENSION_1`). -/
def parse_table_14 (value : Nat) : ValueType :=
  if value ≤ 0x01 then .Energy .MWh (expVIF MASK_N value (-1))
  else if value ≤ 0x03 then .ReactiveEnergy (expVIF MASK_N value 0)
  else if value ≤ 0x05 then .ApparentEnergy (expVIF MASK_N value 0)
  else if 0x08 ≤ value ∧ value ≤ 0x09 then .Energy .GJ (expVIF MASK_N value (-1))
  else if 0x0C ≤ value ∧ value ≤ 0x0F then .Energy .MCal (expVIF MASK_NN value (-1))
  else if 0x10 ≤ value ∧ value ≤ 0x11 then .Volume .M3 (expVIF MASK_N value 2)
  else if 0x14 ≤ value ∧ value ≤ 0x17 then .ReactivePower (expVIF MASK_NN value (-3))
  else if 0x18 ≤ value ∧ value ≤ 0x19 then .Mass .T (expVIF MASK_N value 2)
  else if 0x1A ≤ value ∧ value ≤ 0x1B then .RelativeHumidity (expVIF MASK_N value (-1))
  else if value = 0x20 then .Volume .Feet3 0
  else if value = 0x21 then .Volume .Feet3 (-1)
  else if 0x22 ≤ value ∧ value ≤ 0x26 then .RetiredCode .Table14 value
  else if 0x28 ≤ value ∧ value ≤ 0x29 then .Power .MW (expVIF MASK_N value (-1))
  else if value = 0x2A then .PhaseUU
  else if value = 0x2B then .PhaseUI
  else if 0x2C ≤ value ∧ value ≤ 0x2F then .Frequency (expVIF MASK_NN value (-3))
  else if 0x30 ≤ value ∧ value ≤ 0x31 then .Power .GJph (expVIF MASK_N value (-1))
  else if 0x34 ≤ value ∧ value ≤ 0x37 then .ApparentPower (expVIF MASK_NN value (-1))
  else if 0x58 ≤ value ∧ value ≤ 0x67 then .RetiredCode .Table14 value
  else if value = 0x68 then .ResultingPowerFactorK
  else if value = 0x69 then .ThermalOutputRatingFactorKq
  else if value = 0x6A then .ThermalCouplingRatingFactorOverallKc
  else if value = 0x6B then .ThermalCouplingRatingFactorRoomSideKcr
  else if value = 0x6C then .ThermalCouplingRatingFactorHeaterSideKch
  else if value = 0x6D then .LowTemperatureRatingFactorKt
  else if value = 0x6E then .DisplayOutputScalingFactorKD
  else if 0x70 ≤ value ∧ value ≤ 0x73 then .RetiredCode .Table14 value
  else if 0x74 ≤ value ∧ value ≤ 0x77 then .ColdWarmTemperatureLimit (expVIF MASK_NN value (-3))
  else if 0x78 ≤ value ∧ value ≤ 0x7F then .CumulativeMaxOfActivePower (expVIF MASK_NNN value (-3))
  else .ReservedCode .Table14 value

/-! ## `src/parse/types/string.rs` -/

/-- UTF-8 validity/decoding as performed by `std::str::from_utf8`
(`convert_ascii_string` in string.rs): returns the code points, or `none` for
invalid UTF-8. -/
def utf8Decode : List Nat → Option (List Nat)
  | [] => some []
  | b :: rest =>
    if b ≤ 0x7F then
      (utf8Decode rest).map (b :: ·)
    else if 0xC2 ≤ b ∧ b ≤ 0xDF then
      match rest with
      | c1 :: rest1 =>
        if 0x80 ≤ c1 ∧ c1 ≤ 0xBF then
          (utf8Decode rest1).map (((b - 0xC0) * 0x40 + (c1 - 0x80)) :: ·)
        else none
      | _ => none
    else if 0xE0 ≤ b ∧ b ≤ 0xEF then
      match rest with
      | c1 :: c2 :: rest2 =>
        let lo1 := if b = 0xE0 then 0xA0 else 0x80
        let hi1 := if b = 0xED then 0x9F else 0xBF
        if (lo1 ≤ c1 ∧ c1 ≤ hi1) ∧ (0x80 ≤ c2 ∧ c2 ≤ 0xBF) then
          (utf8Decode rest2).map
            (((b - 0xE0) * 0x1000 + (c1 - 0x80) * 0x40 + (c2 - 0x80)) :: ·)
        else none
      | _ => none
    else if 0xF0 ≤ b ∧ b ≤ 0xF4 then
      match rest with
      | c1 :: c2 :: c3 :: rest3 =>
        let lo1 := if b = 0xF0 then 0x90 else 0x80
        let hi1 := if b = 0xF4 then 0x8F else 0xBF
        if (lo1 ≤ c1 ∧ c1 ≤ hi1) ∧ (0x80 ≤ c2 ∧ c2 ≤ 0xBF) ∧ (0x80 ≤ c3 ∧ c3 ≤ 0xBF) then
          (utf8Decode rest3).map
            (((b - 0xF0) * 0x40000 + (c1 - 0x80) * 0x1000 + (c2 - 0x80) * 0x40 + (c3 - 0x80)) :: ·)
        else none
      | _ => none
    else none

/-- `parse_length_prefix_ascii` (string.rs lines 11–27): one length byte, that
many bytes, UTF-8 decoded (`convert_ascii_string`) and character-reversed.
The result is the reversed code-point list. -/
def parse_length_prefix_ascii (input : List Nat) : MBRes (List Nat × List Nat) :=
  match input with
  | [] => .error (.fail [])
  | l :: rest =>
    if rest.length < l then .error (.fail [])
    else
      match utf8Decode (rest.take l) with
      | none => .error (.fail [])
      | some cps => .ok (cps.reverse, rest.drop l)

/-- The WHATWG windows-1252 decoder used by `encoding_rs::WINDOWS_1252`
(`parse_latin1` in string.rs): bytes 0x80–0x9F map through the table below,
all other bytes map to themselves. -/
def windows1252Char (b : Nat) : Nat :=
  if b = 0x80 then 0x20AC else if b = 0x82 then 0x201A
  else if b = 0x83 then 0x0192 else if b = 0x84 then 0x201E
  else if b = 0x85 then 0x2026 else if b = 0x86 then 0x2020
  else if b = 0x87 then 0x2021 else if b = 0x88 then 0x02C6
  else if b = 0x89 then 0x2030 else if b = 0x8A then 0x0160
  else if b = 0x8B then 0x2039 else if b = 0x8C then 0x0152
  else if b = 0x8E then 0x017D else if b = 0x91 then 0x2018
  else if b = 0x92 then 0x2019 else if b = 0x93 then 0x201C
  else if b = 0x94 then 0x201D else if b = 0x95 then 0x2022
  else if b = 0x96 then 0x2013 else if b = 0x97 then 0x2014
  else if b = 0x98 then 0x02DC else if b = 0x99 then 0x2122
  else if b = 0x9A then 0x0161 else if b = 0x9B then 0x203A
  else if b = 0x9C then 0x0153 else if b = 0x9E then 0x017E
  else if b = 0x9F then 0x0178 else b % 256

/-- `parse_latin1` (string.rs lines 29–36): `num_bytes` bytes decoded as
windows-1252 and character-reversed. -/
def parse_latin1 (num_bytes : Nat) (input : List Nat) : MBRes (List Nat × List Nat) :=
  if input.length < num_bytes then .error (.fail [])
  else .ok (((input.take num_bytes).map windows1252Char).reverse, input.drop num_bytes)

/-! ## `src/parse/application_layer/vib.rs` — parsing -/

/-- `ValueInfoBlock` (vib.rs lines 26–33). -/
structure ValueInfoBlock where
  value_type : ValueType
  extra_vifes : Option (List Nat)

/-- `parse_vif_byte` (vib.rs lines 35–37): `{extension(1), value(7)}`. -/
def parse_vif_byte (b : Nat) : Bool × Nat := (u8bit 7 b, u8bits 0 7 b)

/-- `dump_remaining_vifes` (vib.rs lines 39–51): collect 7-bit VIFE values
while the extension bit stays set. -/
def dump_remaining_vifes : List Nat → MBRes (List Nat × List Nat)
  | [] => .error (.fail ["VIFE"])
  | b :: rest =>
    let (extension, value) := parse_vif_byte b
    if extension then
      match dump_remaining_vifes rest with
      | .error e => .error e
      | .ok (vs, r) => .ok (value :: vs, r)
    else .ok ([value], rest)

/-- Build the `ValueInfoBlock` result (vib.rs lines 115–125): if the last
header byte still had its extension bit set, trailing VIFEs are collected
into `extra_vifes`. -/
def finishVIB (value_type : ValueType) (extension : Bool) (rest : List Nat) :
    MBRes (ValueInfoBlock × List Nat) :=
  if extension then
    match dump_remaining_vifes rest with
    | .error e => .error e
    | .ok (vs, r) => .ok (⟨value_type, some vs⟩, r)
  else .ok (⟨value_type, none⟩, rest)

/-- `ValueInfoBlock::parse` (vib.rs lines 54–126).  Match order follows the
Rust `match`: values ≤ 0x7A go to Table 10 (regardless of the extension bit);
0x7B/0x7D with the extension bit set read a VIFE byte — for an initial 0x7D
whose VIFE is again 0x7D a further byte is decoded via Table 13, otherwise an
initial 0x7D decodes the VIFE via Table 12 and an initial 0x7B via Table 14;
0x7C is the plain-text VIF; 0x7F is manufacturer-specific; 0x7E is `Any`;
anything else (including 0x7B/0x7D without the extension bit) is
`Invalid(value)`. -/
def ValueInfoBlock.parse (input : List Nat) : MBRes (ValueInfoBlock × List Nat) :=
  match input with
  | [] => .error (.fail ["initial VIF"])
  | b :: rest =>
    let (extension, raw_value) := parse_vif_byte b
    if raw_value ≤ 0x7A then
      finishVIB (parse_table_10 raw_value) extension rest
    else if extension ∧ (raw_value = 0x7B ∨ raw_value = 0x7D) then
      match rest with
      | [] => .error (.fail ["VIF extension byte"])
      | b2 :: rest2 =>
        let (ext2, value2) := parse_vif_byte b2
        if raw_value = 0x7D ∧ value2 = 0x7D then
          if ext2 = false then
            .error (.fail ["vife missing for vif extension level 2"])
          else
            match rest2 with
            | [] => .error (.fail ["VIF extension layer 2 byte"])
            | b3 :: rest3 =>
              let (ext3, value3) := parse_vif_byte b3
              finishVIB (parse_table_13 value3) ext3 rest3
        else if raw_value = 0x7D then
          finishVIB (parse_table_12 value2) ext2 rest2
        else
          finishVIB (parse_table_14 value2) ext2 rest2
    else if raw_value = 0x7C then
      match ctxLabel "plain text VIF data" (parse_length_prefix_ascii rest) with
      | .error e => .error e
      | .ok (s, rest2) => finishVIB (.PlainText s) extension rest2
    else if raw_value = 0x7F then
      finishVIB .ManufacturerSpecific extension rest
    else if raw_value = 0x7E then
      finishVIB .Any extension rest
    else
      finishVIB (.Invalid raw_value) extension rest

/-- `ValueType::is_unsigned` (vib.rs lines 472–516). -/
def ValueType.is_unsigned : ValueType → Bool
  | .UniqueMessageIdentification | .DeviceType | .Manufacturer
  | .ParameterSetIdentification | .ModelVersion | .HardwareVersionNumber
  | .MetrologyFirmwareVersionNumber | .OtherSoftwareVersionNumber
  | .CustomerLocation | .Customer | .AccessCodeUser | .AccessCodeOperator
  | .AccessCodeDeveloper | .Password | .ErrorMask | .SecurityKey
  | .BaudRate | .ResponseDelayTime | .FirstStorageNumberForCyclicStorage
  | .LastStorageNumberForCyclicStorage | .SizeOfStorageBlock
  | .DescriptorForTariffAndSubunit | .TimePointSecond
  | .DurationSinceLastReadout _ | .DurationOfTariff _ | .PeriodOfTarrif _
  | .PeriodOfNominalDataTransmissions _ | .DayOfWeek | .WeekNumber
  | .StateOfParameterActivation | .SpecialSupplierInformation
  | .DurationSinceLastCumulation _ | .RemainingBatteryLife _
  | .NumberTimesMeterStopped | .RelativeHumidity _ | .ResultingPowerFactorK
  | .ThermalCouplingRatingFactorHeaterSideKch
  | .ThermalCouplingRatingFactorOverallKc
  | .ThermalCouplingRatingFactorRoomSideKcr
  | .ThermalOutputRatingFactorKq => true
  | _ => false

/-! ## `src/parse/types/number.rs` -/

/-- `initial_bytes.into_iter().rev().reduce(|acc, value| acc * 100 + value)`
(number.rs lines 74–78): little-endian byte-pair accumulation. -/
def bcdCombine (vals : List Int) : Int :=
  match vals.reverse with
  | [] => 0
  | h :: t => t.foldl (fun acc v => acc * 100 + v) h

/-- The `repeat(bytes - 1, (parse_bcd_nibble, parse_bcd_nibble))` stage of
`parse_bcd` (number.rs lines 53–58): each of the first `n−1` bytes must hold
two decimal nibbles; the byte value is `hi * 10 + lo`. -/
def parse_bcd_initial : Nat → List Nat → MBRes (List Int × List Nat)
  | 0, input => .ok ([], input)
  | _ + 1, [] => .error (.fail ["initial bytes"])
  | k + 1, b :: rest =>
    let hi := u8bits 4 4 b
    let lo := u8bits 0 4 b
    if hi < 10 ∧ lo < 10 then
      match parse_bcd_initial k rest with
      | .error e => .error e
      | .ok (vs, r) => .ok (((hi * 10 + lo : Nat) : Int) :: vs, r)
    else .error (.fail ["initial bytes"])

/-- `parse_bcd` (number.rs lines 43–84) without its outermost context label:
`n = 0` consumes nothing; `n > 9` is an assertion; otherwise `n − 1` strict
BCD bytes, then a final byte whose high nibble may also be 0xF (negation). -/
def parse_bcd_core (n : Nat) (input : List Nat) : MBRes (Int × List Nat) :=
  if n = 0 then .ok (0, input)
  else if n > 9 then .error (.assertFail "cannot safely parse more than 9 bytes")
  else
    match parse_bcd_initial (n - 1) input with
    | .error e => .error e
    | .ok (vals, input1) =>
      match input1 with
      | [] => .error (.fail ["final byte"])
      | b :: rest =>
        let hi := u8bits 4 4 b
        let lo := u8bits 0 4 b
        if (hi = 0xF ∨ hi < 10) ∧ lo < 10 then
          let neg := hi = 0xF
          let hiv : Nat := if neg then 0 else hi
          let result := bcdCombine (vals ++ [((hiv * 10 + lo : Nat) : Int)])
          .ok ((if neg then -result else result), rest)
        else .error (.fail ["final byte"])

/-- `parse_bcd` (number.rs lines 43–84), with its
`context(StrContext::Label("signed BCD number"))`. -/
def parse_bcd (n : Nat) (input : List Nat) : MBRes (Int × List Nat) :=
  ctxLabel "signed BCD number" (parse_bcd_core n input)

/-- Little-endian value of a byte list (`from_le_bytes` composition). -/
def leVal : List Nat → Nat
  | [] => 0
  | b :: rest => b % 256 + 256 * leVal rest

/-- Two's-complement reading of an `8 * n`-bit little-endian value (the
`i64::from_le_bytes` + arithmetic-shift idiom of number.rs lines 265–271). -/
def toSigned (n v : Nat) : Int :=
  if v < 2 ^ (8 * n - 1) then (v : Int) else (v : Int) - 2 ^ (8 * n)

/-- `parse_binary_signed` (number.rs lines 239–275). -/
def parse_binary_signed (bytes : Nat) (input : List Nat) : MBRes (Int × List Nat) :=
  if bytes = 0 then .ok (0, input)
  else if bytes > 8 then .error (.assertFail "cannot parse more than 8 bytes")
  else if input.length < bytes then
    if bytes = 3 then .error (.fail ["24-bit signed number"])
    else if bytes = 5 then .error (.fail ["40-bit signed number"])
    else if bytes = 6 then .error (.fail ["48-bit signed number"])
    else if bytes = 7 then .error (.fail ["56-bit signed number"])
    else .error (.fail [])
  else .ok (toSigned bytes (leVal (input.take bytes)), input.drop bytes)

/-- `parse_binary_unsigned` (number.rs lines 403–437). -/
def parse_binary_unsigned (bytes : Nat) (input : List Nat) : MBRes (Nat × List Nat) :=
  if bytes = 0 then .ok (0, input)
  else if bytes > 8 then .error (.assertFail "cannot parse more than 8 bytes")
  else if input.length < bytes then
    if bytes = 3 then .error (.fail ["24-bit unsigned number"])
    else if bytes = 5 then .error (.fail ["40-bit unsigned number"])
    else if bytes = 6 then .error (.fail ["48-bit unsigned number"])
    else if bytes = 7 then .error (.fail ["56-bit unsigned number"])
    else .error (.fail [])
  else .ok (leVal (input.take bytes), input.drop bytes)

/-- `parse_real` (number.rs lines 545–547): a 4-byte little-endian IEEE-754
single.  The value is kept as its raw 32-bit pattern (bit-for-bit the same
information the `f32` carries); float arithmetic is never performed on it. -/
def parse_real (input : List Nat) : MBRes (Nat × List Nat) :=
  if input.length < 4 then .error (.fail [])
  else .ok (leVal (input.take 4), input.drop 4)

/-- Uppercase hex digit. -/
def hexDigit (n : Nat) : Char :=
  if n < 10 then Char.ofNat (48 + n) else Char.ofNat (55 + n % 16)

/-- Modelled from the spec: `parse_invalid_bcd` is imported by `record.rs`
from `types::number` but its definition is not under `src/`.  Spec §4.6:
"identical consumption [to strict BCD] but accept any nibble; emit hex string
(uppercase), reversed to big-endian order, with the sign nibble rendered as
`-` when 0xF". -/
def parse_invalid_bcd (n : Nat) (input : List Nat) : MBRes (String × List Nat) :=
  if n = 0 then .ok ("", input)
  else if n > 9 then .error (.assertFail "cannot safely parse more than 9 bytes")
  else if input.length < n then .error (.fail ["invalid BCD number"])
  else
    let be := (input.take n).reverse
    match be with
    | [] => .ok ("", input.drop n)
    | b :: rest =>
      let hi := u8bits 4 4 b
      let lo := u8bits 0 4 b
      let tailChars := rest.flatMap (fun c => [hexDigit (u8bits 4 4 c), hexDigit (u8bits 0 4 c)])
      let chars :=
        if hi = 0xF then '-' :: hexDigit lo :: tailChars
        else hexDigit hi :: hexDigit lo :: tailChars
      .ok (String.mk chars, input.drop n)

/-! ## `src/parse/types/date.rs` -/

/-- `TypeGDate` (date.rs lines 191–196). -/
structure TypeGDate where
  day : Nat
  month : Nat
  year : Nat
  deriving DecidableEq, Repr

/-- `parse_dmy` (date.rs lines 15–49) on its two bytes.  Bit layout
`{year_upper(3), day(5)} {year_lower(4), month(4)}`.  Check order follows the
source: 16-bit sentinel peek, then day, then month, then the assembled year.
Note the month check is `0..=12 | 15` (month 0 is deliberately accepted; see
the source comment about malformed libmbus corpus data). -/
def parse_dmy (b0 b1 : Nat) : MBRes (Nat × Nat × Nat) :=
  if b0 % 256 = 0xFF ∧ b1 % 256 = 0xFF then .error (.fail ["invalid check"])
  else
    let yu := u8bits 5 3 b0
    let day := u8bits 0 5 b0
    let yl := u8bits 4 4 b1
    let month := u8bits 0 4 b1
    if ¬day ≤ 31 then .error (.fail ["day"])
    else if ¬(month ≤ 12 ∨ month = 15) then .error (.fail ["month"])
    else
      let year := yu + yl * 8
      if ¬(year ≤ 99 ∨ year = 127) then .error (.fail ["year"])
      else .ok (day, month, year)

/-- `TypeGDate::parse` (date.rs lines 198–204): `bits::bits(parse_dmy)` over
two bytes. -/
def TypeGDate.parse (input : List Nat) : MBRes (TypeGDate × List Nat) :=
  match input with
  | b0 :: b1 :: rest =>
    match parse_dmy b0 b1 with
    | .error e => .error e
    | .ok (day, month, year) => .ok (⟨day, month, year⟩, rest)
  | _ => .error (.fail [])

/-- `TypeFDateTime` (date.rs lines 60–69). -/
structure TypeFDateTime where
  minute : Nat
  hour : Nat
  day : Nat
  month : Nat
  year : Nat
  hundred_year : Nat
  in_dst : Bool
  deriving DecidableEq, Repr

/-- `TypeFDateTime::parse` (date.rs lines 71–123).  Byte 1:
`{invalid(1), reserved(1), minute(6)}`; byte 2:
`{in_dst(1), hundred_year(2), hour(5)}`; bytes 3–4: `parse_dmy`.  A
`hundred_year` of 0 with `year ≤ 80` is normalised to 1 (EN 13757-3:2018
Annex A footnote). -/
def TypeFDateTime.parse (input : List Nat) : MBRes (TypeFDateTime × List Nat) :=
  match input with
  | b0 :: b1 :: b2 :: b3 :: rest =>
    if u8bit 7 b0 then .error (.fail ["invalid bit"])
    else if u8bit 6 b0 then .error (.fail ["reserved"])
    else
      let minute := u8bits 0 6 b0
      if ¬(minute ≤ 59 ∨ minute = 63) then .error (.fail ["minute"])
      else
        let in_dst := u8bit 7 b1
        let hy := u8bits 5 2 b1
        let hour := u8bits 0 5 b1
        if ¬(hour ≤ 23 ∨ hour = 31) then .error (.fail ["hour"])
        else
          match parse_dmy b2 b3 with
          | .error e => .error e
          | .ok (day, month, year) =>
            let hundred_year := if hy = 0 ∧ year ≤ 80 then 1 else hy
            .ok (⟨minute, hour, day, month, year, hundred_year, in_dst⟩, rest)
  | _ => .error (.fail [])

/-- `TypeIDateTime` (date.rs lines 269–282). -/
structure TypeIDateTime where
  second : Nat
  minute : Nat
  hour : Nat
  day : Nat
  month : Nat
  year : Nat
  day_of_week : Nat
  week : Nat
  in_dst : Bool
  leap_year : Bool
  dst_offset : Int
  deriving DecidableEq, Repr

/-- `TypeIDateTime::parse` (date.rs lines 284–340).  Six bytes:
`{leap_year(1), in_dst(1), second(6)}`, `{invalid(1), dst_plus(1), minute(6)}`,
`{day_of_week(3), hour(5)}`, two `parse_dmy` bytes and
`{dst_offset(2), week(6)}` (the week verify carries the source's
"dst offset" label). -/
def TypeIDateTime.parse (input : List Nat) : MBRes (TypeIDateTime × List Nat) :=
  match input with
  | b0 :: b1 :: b2 :: b3 :: b4 :: b5 :: rest =>
    let leap_year := u8bit 7 b0
    let in_dst := u8bit 6 b0
    let second := u8bits 0 6 b0
    if ¬(second ≤ 59 ∨ second = 63) then .error (.fail ["second"])
    else if u8bit 7 b1 then .error (.fail ["invalid check"])
    else
      let dst_plus := u8bit 6 b1
      let minute := u8bits 0 6 b1
      if ¬(minute ≤ 59 ∨ minute = 63) then .error (.fail ["minute"])
      else
        let day_of_week := u8bits 5 3 b2
        let hour := u8bits 0 5 b2
        if ¬(hour ≤ 23 ∨ hour = 31) then .error (.fail ["hour"])
        else
          match parse_dmy b3 b4 with
          | .error e => .error e
          | .ok (day, month, year) =>
            let dst_offset := u8bits 6 2 b5
            let week := u8bits 0 6 b5
            if ¬(week ≤ 53) then .error (.fail ["dst offset"])
            else
              .ok (⟨second, minute, hour, day, month, year, day_of_week, week,
                    in_dst, leap_year,
                    if dst_plus then (dst_offset : Int) else -(dst_offset : Int)⟩, rest)
  | _ => .error (.fail [])

/-- `TypeJTime` (date.rs lines 343–348). -/
structure TypeJTime where
  second : Nat
  minute : Nat
  hour : Nat
  deriving DecidableEq, Repr

/-- `TypeJTime::parse` (date.rs lines 350–386).  Three bytes, a 24-bit
all-ones sentinel, and zero padding of 2/2/3 bits before second, minute and
hour. -/
def TypeJTime.parse (input : List Nat) : MBRes (TypeJTime × List Nat) :=
  match input with
  | b0 :: b1 :: b2 :: rest =>
    if b0 % 256 = 0xFF ∧ b1 % 256 = 0xFF ∧ b2 % 256 = 0xFF then
      .error (.fail ["invalid check"])
    else if ¬(u8bits 6 2 b0 = 0) then .error (.fail ["padding"])
    else
      let second := u8bits 0 6 b0
      if ¬(second ≤ 59 ∨ second = 63) then .error (.fail ["second"])
      else if ¬(u8bits 6 2 b1 = 0) then .error (.fail ["padding"])
      else
        let minute := u8bits 0 6 b1
        if ¬(minute ≤ 59 ∨ minute = 63) then .error (.fail ["minute"])
        else if ¬(u8bits 5 3 b2 = 0) then .error (.fail ["padding"])
        else
          let hour := u8bits 0 5 b2
          if ¬(hour ≤ 23 ∨ hour = 31) then .error (.fail ["hour"])
          else .ok (⟨second, minute, hour⟩, rest)
  | _ => .error (.fail [])

/-- `TypeKDST` (date.rs lines 448–458). -/
structure TypeKDST where
  starts_hour : Nat
  starts_day : Nat
  starts_month : Nat
  ends_day : Nat
  ends_month : Nat
  enable : Bool
  dst_deviation : Int
  local_deviation : Nat
  deriving DecidableEq, Repr

/-- `TypeKDST::parse` (date.rs lines 460–519).  Four bytes:
`{gmt_upper(3), starts_hour(5)}`, `{enable(1), gmt_lower(2), starts_day(5)}`,
`{dst_plus(1), dst_deviation(2), ends_day(5)}`,
`{ends_month(4), starts_month(4)}`; finally
`local_deviation = gmt_lower + (gmt_upper << 3)` must be 0–23 or 31. -/
def TypeKDST.parse (input : List Nat) : MBRes (TypeKDST × List Nat) :=
  match input with
  | b0 :: b1 :: b2 :: b3 :: rest =>
    let gmt_u := u8bits 5 3 b0
    let starts_hour := u8bits 0 5 b0
    if ¬(starts_hour ≤ 23 ∨ starts_hour = 31) then .error (.fail ["hour begins"])
    else
      let enable := u8bit 7 b1
      let gmt_l := u8bits 5 2 b1
      let starts_day := u8bits 0 5 b1
      if ¬(1 ≤ starts_day ∧ starts_day ≤ 31) then .error (.fail ["day begins"])
      else
        let dst_plus := u8bit 7 b2
        let dst_deviation := u8bits 5 2 b2
        let ends_day := u8bits 0 5 b2
        if ¬(1 ≤ ends_day ∧ ends_day ≤ 31) then .error (.fail ["day ends"])
        else
          let ends_month := u8bits 4 4 b3
          let starts_month := u8bits 0 4 b3
          if ¬(1 ≤ ends_month ∧ ends_month ≤ 12) then .error (.fail ["month ends"])
          else if ¬(1 ≤ starts_month ∧ starts_month ≤ 12) then .error (.fail ["month begins"])
          else
            let local_deviation := gmt_l + gmt_u * 8
            if ¬(local_deviation ≤ 23 ∨ local_deviation = 31) then .error (.fail [])
            else
              .ok (⟨starts_hour, starts_day, starts_month, ends_day, ends_month, enable,
                    (if dst_plus then (dst_deviation : Int) else -(dst_deviation : Int)),
                    local_deviation⟩, rest)
  | _ => .error (.fail [])

/-! ## `src/parse/types.rs` — the `DataType` payload -/

/-- `DataType` (types.rs; the variant set used by `record.rs`): the decoded
record payload.  `Real` keeps the raw little-endian 32-bit pattern;
`String` keeps the reversed decoded code points. -/
inductive DataType where
  | Unsigned (v : Nat)
  | Signed (v : Int)
  | Real (bits : Nat)
  | DateTimeF (v : TypeFDateTime)
  | DateTimeI (v : TypeIDateTime)
  | Date (v : TypeGDate)
  | Time (v : TypeJTime)
  | DST (v : TypeKDST)
  | String (s : List Nat)
  | ErrorValue (s : String)
  | VariableLengthNumber (bytes : List Nat)
  | None

/-! ## `src/parse/application_layer/record.rs` -/

/-- `Record` (record.rs lines 22–27). -/
structure Record where
  dib : DataInfoBlock
  vib : ValueInfoBlock
  data : DataType

/-- `handle_date_types` (record.rs lines 129–145): `TypeGDate` survives only
with DIB raw-type `Binary(2)` (otherwise it becomes `Invalid(0x6C)`);
`VariableDateTime` is resolved by DIB width (`LVAR` → `TypeMDatetime`,
`Binary(4)` → `TypeFDateTime`, `Binary(3)` → `TypeJTime`,
`Binary(5)` → `TypeIDateTime`, otherwise `Invalid(0x6D)`); every other
value-type — including `DSTTypeK` and the specific date/time types — passes
through unchanged. -/
def handle_date_types (dib : DataInfoBlock) (vib : ValueInfoBlock) : ValueInfoBlock :=
  { vib with
    value_type :=
      match vib.value_type with
      | .TypeGDate =>
        match dib.raw_type with
        | .Binary 2 => .TypeGDate
        | _ => .Invalid 0x6C
      | .VariableDateTime =>
        match dib.raw_type with
        | .LVAR => .TypeMDatetime
        | .Binary 4 => .TypeFDateTime
        | .Binary 3 => .TypeJTime
        | .Binary 5 => .TypeIDateTime
        | _ => .Invalid 0x6D
      | vt => vt }

/-- `parse_binary` (record.rs lines 108–123): signed or unsigned multi-byte
integer depending on the VIB. -/
def parse_binary (unsigned : Bool) (bytes : Nat) (input : List Nat) :
    MBRes (DataType × List Nat) :=
  if unsigned then
    match parse_binary_unsigned bytes input with
    | .error e => .error e
    | .ok (v, r) => .ok (.Unsigned v, r)
  else
    match parse_binary_signed bytes input with
    | .error e => .error e
    | .ok (v, r) => .ok (.Signed v, r)

/-- `parse_giant_number` (record.rs lines 125–127): `bytes` raw bytes. -/
def parse_giant_number (bytes : Nat) (input : List Nat) : MBRes (DataType × List Nat) :=
  if input.length < bytes then .error (.fail [])
  else .ok (.VariableLengthNumber (input.take bytes), input.drop bytes)

/-- The LVAR payload dispatch of `Record::parse` (record.rs lines 73–100):
a length byte selects the encoding band. -/
def parse_lvar_data (unsigned : Bool) (input : List Nat) : MBRes (DataType × List Nat) :=
  match input with
  | [] => .error (.fail ["LVAR value"])
  | l :: rest =>
    let v := l % 256
    if v ≤ 0xBF then
      match parse_latin1 v rest with
      | .error e => .error e
      | .ok (s, r) => .ok (.String s, r)
    else if v ≤ 0xC9 then
      match parse_bcd (v - 0xC0) rest with
      | .error e => .error e
      | .ok (n, r) => if n > 0 then .ok (.Signed n, r) else .error (.fail [])
    else if 0xD0 ≤ v ∧ v ≤ 0xD9 then
      match parse_bcd (v - 0xD0) rest with
      | .error e => .error e
      | .ok (n, r) => .ok (.Signed (if n > 0 then -n else n), r)
    else if 0xE0 ≤ v ∧ v ≤ 0xE8 then
      parse_binary unsigned (v - 0xE0) rest
    else if 0xE9 ≤ v ∧ v ≤ 0xEF then
      parse_giant_number (v - 0xE0) rest
    else if 0xF0 ≤ v ∧ v ≤ 0xF4 then
      parse_giant_number (4 * (v - 0xEC)) rest
    else if v = 0xF5 then
      parse_giant_number 48 rest
    else if v = 0xF6 then
      parse_giant_number 64 rest
    else .error (.fail ["LVAR value"])

/-- The payload stage of `Record::parse` (record.rs lines 37–102): a
date/time value-type selects its bit-packed parser, everything else
dispatches on the DIB raw-type (BCD with an invalid-BCD fallback, binary
signed/unsigned, real, none, or LVAR). -/
def parse_record_data (dib : DataInfoBlock) (vib : ValueInfoBlock) (input : List Nat) :
    MBRes (DataType × List Nat) :=
  let unsigned := vib.value_type.is_unsigned
  match vib.value_type with
  | .TypeFDateTime =>
    ctxLabel "Type F Date/Time"
      (match TypeFDateTime.parse input with
       | .error e => .error e
       | .ok (v, r) => .ok (.DateTimeF v, r))
  | .TypeGDate =>
    ctxLabel "Type G Date"
      (match TypeGDate.parse input with
       | .error e => .error e
       | .ok (v, r) => .ok (.Date v, r))
  | .TypeIDateTime =>
    ctxLabel "Type I Date/Time"
      (match TypeIDateTime.parse input with
       | .error e => .error e
       | .ok (v, r) => .ok (.DateTimeI v, r))
  | .TypeJTime =>
    ctxLabel "Type J Time"
      (match TypeJTime.parse input with
       | .error e => .error e
       | .ok (v, r) => .ok (.Time v, r))
  | .DSTTypeK =>
    ctxLabel "Daylight Savings Type K"
      (match TypeKDST.parse input with
       | .error e => .error e
       | .ok (v, r) => .ok (.DST v, r))
  | _ =>
    match dib.raw_type with
    | .BCD num =>
      (match parse_bcd num input with
       | .ok (v, r) => .ok (.Signed v, r)
       | .error (.fail _) =>
         (match parse_invalid_bcd num input with
          | .error e => .error e
          | .ok (s, r) => .ok (.ErrorValue s, r))
       | .error e => .error e)
    | .Binary num => parse_binary unsigned num input
    | .Real =>
      (match parse_real input with
       | .error e => .error e
       | .ok (bits, r) => .ok (.Real bits, r))
    | .None => .ok (.None, input)
    | .LVAR => parse_lvar_data unsigned input

/-- `Record::parse` (record.rs lines 29–106): DIB then VIB (both inside one
`bits::bits`), the `handle_date_types` rewrite, then the payload. -/
def Record.parse (input : List Nat) : MBRes (Record × List Nat) :=
  match DataInfoBlock.parse input with
  | .error e => .error e
  | .ok (dib, rest1) =>
    match ValueInfoBlock.parse rest1 with
    | .error e => .error e
    | .ok (vib0, rest2) =>
      let vib := handle_date_types dib vib0
      match parse_record_data dib vib rest2 with
      | .error e => .error e
      | .ok (data, rest3) => .ok (⟨dib, vib, data⟩, rest3)

/-! ## `src/parse/manufacturer.rs` -/

/-- `characterise` (manufacturer.rs lines 21–37): `(c & 0x1F) + 64`, then the
character must be an ASCII uppercase letter.  The error strings are the
`ParseError::DecodeError` payloads. -/
def characterise (c : Nat) : Except String Char :=
  let v := c % 32 + 64
  if 65 ≤ v ∧ v ≤ 90 then .ok (Char.ofNat v)
  else .error "Unexpected character in manufacturer code"

/-- `unpack_manufacturer_code` (manufacturer.rs lines 39–47): the three
letters are taken from `packed >> 10`, `packed >> 2` and `packed`. -/
def unpack_manufacturer_code (packed : Nat) : Except String String :=
  match characterise (packed / 1024), characterise (packed / 4), characterise packed with
  | .ok a, .ok b, .ok c => .ok (String.mk [a, b, c])
  | .error e, _, _ => .error e
  | _, .error e, _ => .error e
  | _, _, .error e => .error e

/-- `pack_manufacturer_code` (manufacturer.rs lines 49–62):
`(a − 64) * 32 * 32 + (b − 64) * 32 + (c − 64)` over three ASCII-uppercase
characters. -/
def pack_manufacturer_code (a b c : Char) : Nat :=
  (a.toNat - 64) * 32 * 32 + (b.toNat - 64) * 32 + (c.toNat - 64)

/-- Modelled from the spec: the `transport_layer::manufacturer` module that
`header.rs` imports is not under `src/` (only `transport_layer.rs` declares
it).  Spec §4.2: "unpack 16-bit value as three base-32 letters
`(c>>10)&31, (c>>5)&31, c&31` each plus 64; all three must be ASCII uppercase
or the parse fails".  Returns `none` when a letter is not uppercase. -/
def tpl_unpack_manufacturer_code (packed : Nat) : Option String :=
  let letter (x : Nat) : Option Char :=
    let v := x % 32 + 64
    if 65 ≤ v ∧ v ≤ 90 then some (Char.ofNat v) else none
  match letter (packed / 1024), letter (packed / 32), letter packed with
  | some a, some b, some c => some (String.mk [a, b, c])
  | _, _, _ => none

/-- Modelled from the spec: `device_name` of the missing
`transport_layer::manufacturer` module.  Spec §6: a pure lookup table over
(manufacturer, version, medium) whose unknowns return `None` — the name is
"absent, not an error", and no parse decision depends on it, so it is
modelled as the always-unknown lookup. -/
def device_name (_raw_id : List Nat) (_manufacturer : Nat) (_version : Nat) : Option String :=
  none

/-! ## `src/parse/transport_layer/header.rs` -/

/-- `ApplicationError` (header.rs lines 16–26): the application status inside
`MeterStatus`. -/
inductive ApplicationError where
  | None
  | Busy
  | Error
  | Alarm
  deriving DecidableEq, Repr

/-- `MeterStatus` (header.rs lines 30–47). -/
structure MeterStatus where
  manufacturer_2 : Bool
  manufacturer_1 : Bool
  manufacturer_0 : Bool
  temporary_error : Bool
  permanent_error : Bool
  power_low : Bool
  application : ApplicationError
  deriving DecidableEq, Repr

/-- `MeterStatus::parse` (header.rs lines 49–87): one byte of bit flags; the
low two bits select the application status.  Total on a byte. -/
def MeterStatus.ofByte (b : Nat) : MeterStatus :=
  { manufacturer_2 := u8bit 7 b
    manufacturer_1 := u8bit 6 b
    manufacturer_0 := u8bit 5 b
    temporary_error := u8bit 4 b
    permanent_error := u8bit 3 b
    power_low := u8bit 2 b
    application :=
      if u8bits 0 2 b = 0 then .None
      else if u8bits 0 2 b = 1 then .Busy
      else if u8bits 0 2 b = 2 then .Error
      else .Alarm }

/-- `SecurityMode` (header.rs lines 95–100). -/
inductive SecurityMode where
  | None
  | Reserved (raw : Nat)
  deriving DecidableEq, Repr

/-- `SecurityMode::parse` (header.rs lines 101–127).  Two bytes: a
little-endian peek for the raw value, then `{info_low(8)}` from the first
byte and `{mode(5), info_high(3)}` from the second.  Mode 0 requires both
info fields to be zero (`verify_map` returns `None` otherwise — a parse
error); the libmbus pass-through set maps to `Reserved(raw)`; every other
mode hits `todo!` — a panic, not an error. -/
def SecurityMode.parse (input : List Nat) : MBRes (SecurityMode × List Nat) :=
  match input with
  | b0 :: b1 :: rest =>
    let raw_value := b0 % 256 + 256 * (b1 % 256)
    let info_low := u8bits 0 8 b0
    let security_mode := u8bits 3 5 b1
    let info_high := u8bits 0 3 b1
    if security_mode = 0 then
      if info_high = 0 ∧ info_low = 0 then .ok (.None, rest)
      else .error (.fail [])
    else if security_mode = 6 ∨ security_mode = 11 ∨ security_mode = 12 ∨
        security_mode = 14 ∨ 16 ≤ security_mode then
      .ok (.Reserved raw_value, rest)
    else
      .error (.crash
        ("Packet encryption is not yet supported (mode " ++ toString security_mode ++ ")"))
  | _ => .error (.fail ["Raw value peek"])

/-- `ShortHeader` (header.rs lines 129–135).  `ExtraHeader` is a placeholder
struct in the source; `extra_header` is always `None` after parsing. -/
structure ShortHeader where
  access_number : Nat
  status : MeterStatus
  configuration_field : SecurityMode
  extra_header : Option Unit
  deriving DecidableEq, Repr

/-- `ShortHeader::parse_raw` (header.rs lines 142–158): access number byte,
status byte, security-mode field. -/
def ShortHeader.parse_raw (input : List Nat) : MBRes (ShortHeader × List Nat) :=
  match input with
  | [] => .error (.fail ["access number"])
  | an :: rest1 =>
    match ctxLabel "tpl configuration field"
        (match rest1 with
         | [] => .error (.fail ["status"])
         | st :: rest2 =>
           match SecurityMode.parse rest2 with
           | .error e => .error e
           | .ok (cf, rest3) => .ok ((MeterStatus.ofByte st, cf), rest3)) with
    | .error e => .error e
    | .ok ((status, cf), rest3) =>
      .ok (⟨an % 256, status, cf, Option.none⟩, rest3)

/-- `WaterMeterType` (header.rs lines 162–170). -/
inductive WaterMeterType where
  | Potable
  | Irrigation
  | Cold
  | Warm
  | Hot
  | DualRegister
  | Waste
  deriving DecidableEq, Repr

/-- `ThermalMeterType` (header.rs lines 173–179). -/
inductive ThermalMeterType where
  | OutletHeat
  | InletHeat
  | OutletCooling
  | InletCooling
  | Combined
  deriving DecidableEq, Repr

/-- `DeviceType` (header.rs lines 182–222). -/
inductive DeviceType where
  | Other
  | OilMeter
  | ElectricityMeter
  | GasMeter
  | ThermalEnergyMeter (t : ThermalMeterType)
  | SteamMeter
  | WaterMeter (t : WaterMeterType)
  | HeatCostAllocator
  | CompressedAir
  | BusOrSystemComponent
  | Unknown
  | WaterDataLogger
  | GasDataLogger
  | GasConverter
  | CalorificValue
  | PressureMeter
  | ADConverter
  | SmokeDetector
  | RoomSensor
  | GasDetector
  | ReservedSensor
  | ElectricalBreaker
  | Valve
  | ReservedSwitchingDevice
  | CustomerUnit
  | ReservedCustomerUnit
  | Garbage
  | ReservedCO2
  | ReservedEnvironmental
  | ServiceTool
  | CommunicationController
  | UnidirectionalRepeater
  | BidirectionalRepeater
  | ReservedSystemDevice
  | RadioConverterSystemSide
  | RadioConverterMeterSide
  | BusConverterMeterSide
  | Reserved
  | Wildcard
  deriving DecidableEq, Repr

/-- `DeviceType::parse` (header.rs lines 224–281): a total 256-entry decode
of one byte. -/
def DeviceType.ofByte (v0 : Nat) : DeviceType :=
  let v := v0 % 256
  if v = 0x00 then .Other
  else if v = 0x01 then .OilMeter
  else if v = 0x02 then .ElectricityMeter
  else if v = 0x03 then .GasMeter
  else if v = 0x04 then .ThermalEnergyMeter .OutletHeat
  else if v = 0x05 then .SteamMeter
  else if v = 0x06 then .WaterMeter .Warm
  else if v = 0x07 then .WaterMeter .Potable
  else if v = 0x08 then .HeatCostAllocator
  else if v = 0x09 then .CompressedAir
  else if v = 0x0A then .ThermalEnergyMeter .OutletCooling
  else if v = 0x0B then .ThermalEnergyMeter .InletCooling
  else if v = 0x0C then .ThermalEnergyMeter .InletHeat
  else if v = 0x0D then .ThermalEnergyMeter .Combined
  else if v = 0x0E then .BusOrSystemComponent
  else if v = 0x0F then .Unknown
  else if v = 0x10 then .WaterMeter .Irrigation
  else if v = 0x11 then .WaterDataLogger
  else if v = 0x12 then .GasDataLogger
  else if v = 0x13 then .GasConverter
  else if v = 0x14 then .CalorificValue
  else if v = 0x15 then .WaterMeter .Hot
  else if v = 0x16 then .WaterMeter .Cold
  else if v = 0x17 then .WaterMeter .DualRegister
  else if v = 0x18 then .PressureMeter
  else if v = 0x19 then .ADConverter
  else if v = 0x1A then .SmokeDetector
  else if v = 0x1B then .RoomSensor
  else if v = 0x1C then .GasDetector
  else if v ≤ 0x1F then .ReservedSensor
  else if v = 0x20 then .ElectricalBreaker
  else if v = 0x21 then .Valve
  else if v ≤ 0x24 then .ReservedSwitchingDevice
  else if v = 0x25 then .CustomerUnit
  else if v ≤ 0x27 then .ReservedCustomerUnit
  else if v = 0x28 then .WaterMeter .Waste
  else if v = 0x29 then .Garbage
  else if v = 0x2A then .ReservedCO2
  else if v ≤ 0x2F then .ReservedEnvironmental
  else if v = 0x30 then .ServiceTool
  else if v = 0x31 then .CommunicationController
  else if v = 0x32 then .UnidirectionalRepeater
  else if v = 0x33 then .BidirectionalRepeater
  else if v ≤ 0x35 then .ReservedSystemDevice
  else if v = 0x36 then .RadioConverterSystemSide
  else if v = 0x37 then .RadioConverterMeterSide
  else if v = 0x38 then .BusConverterMeterSide
  else if v ≤ 0x3F then .ReservedSystemDevice
  else if v ≤ 0xFE then .Reserved
  else .Wildcard

/-- `LongHeader` (header.rs lines 283–294). -/
structure LongHeader where
  identifier : Nat
  manufacturer : String
  dev_name : Option String
  version : Nat
  device_type : DeviceType
  access_number : Nat
  status : MeterStatus
  configuration_field : SecurityMode
  extra_header : Option Unit
  deriving DecidableEq, Repr

/-- `TPLHeader` (header.rs lines 345–350). -/
inductive TPLHeader where
  | None
  | Short (h : ShortHeader)
  | Long (h : LongHeader)
  deriving DecidableEq, Repr

/-- `ShortHeader::parse` (header.rs lines 138–140). -/
def ShortHeader.parse (input : List Nat) : MBRes (TPLHeader × List Nat) :=
  match ShortHeader.parse_raw input with
  | .error e => .error e
  | .ok (h, rest) => .ok (.Short h, rest)

/-- `LongHeader::parse` (header.rs lines 296–343): a 4-byte BCD identifier
(kept if it converts to `u32`, i.e. is non-negative), a 2-byte little-endian
manufacturer code that must unpack to three ASCII-uppercase letters, a
version byte, a device-type byte, then the short-header fields. -/
def LongHeader.parse (input : List Nat) : MBRes (TPLHeader × List Nat) :=
  match ctxLabel "device identifier"
      (match parse_bcd 4 input with
       | .error e => .error e
       | .ok (v, r) => if v < 0 then .error (.fail []) else .ok (v.toNat, r)) with
  | .error e => .error e
  | .ok (identifier, rest1) =>
    let raw_identifier := input.take 4
    match rest1 with
    | m0 :: m1 :: rest2 =>
      let raw_manufacturer := m0 % 256 + 256 * (m1 % 256)
      match tpl_unpack_manufacturer_code raw_manufacturer with
      | Option.none => .error (.fail ["manufacturer"])
      | some manufacturer =>
        match rest2 with
        | [] => .error (.fail ["version"])
        | ver :: rest3 =>
          match rest3 with
          | [] => .error (.fail ["device type"])
          | dt :: rest4 =>
            let device_type := DeviceType.ofByte dt
            match ShortHeader.parse_raw rest4 with
            | .error e => .error e
            | .ok (sh, rest5) =>
              .ok (.Long
                { identifier := identifier
                  manufacturer := manufacturer
                  dev_name := device_name raw_identifier raw_manufacturer (ver % 256)
                  version := ver % 256
                  device_type := device_type
                  access_number := sh.access_number
                  status := sh.status
                  configuration_field := sh.configuration_field
                  extra_header := sh.extra_header }, rest5)
    | _ => .error (.fail ["manufacturer"])

/-! ## `src/parse/application_layer/frame.rs` -/

/-- `Frame` (frame.rs lines 15–20). -/
structure Frame where
  records : List Record
  more_data_follows : Bool
  manufacturer_specific : List Nat

/-- The `repeat_till` loop of `Frame::parse` (frame.rs lines 23–52): each
round first tries the end-of-records marker (end of input → no more data;
0x1F → more data follows; 0x0F → no more data), then either discards a run
of 0x2F idle-filler bytes or parses a record.  Returns the records, the
more-data flag and the bytes after the terminator.  `fuel` bounds the loop
(every round consumes at least one byte, so `input.length` suffices). -/
def frameLoop : Nat → List Nat → MBRes (List Record × Bool × List Nat)
  | 0, _ => .error (.fail ["end of records marker"])
  | fuel + 1, input =>
    match input with
    | [] => .ok ([], false, [])
    | b :: rest =>
      if b % 256 = 0x1F then .ok ([], true, rest)
      else if b % 256 = 0x0F then .ok ([], false, rest)
      else if b % 256 = 0x2F then
        match frameLoop fuel (rest.dropWhile (fun x => x % 256 = 0x2F)) with
        | .error e => .error e
        | .ok out => .ok out
      else
        match ctxLabel "frame record" (Record.parse input) with
        | .error e => .error e
        | .ok (r, rest2) =>
          match frameLoop fuel rest2 with
          | .error e => .error e
          | .ok (rs, more, remaining) => .ok (r :: rs, more, remaining)

/-- `Frame::parse` (frame.rs lines 22–63): the record loop followed by
`manufacturer_specific`, which captures every remaining byte. -/
def Frame.parse (input : List Nat) : MBRes (Frame × List Nat) :=
  match frameLoop (input.length + 1) input with
  | .error e => .error e
  | .ok (records, more, remaining) => .ok (⟨records, more, remaining⟩, [])

/-! ## `src/parse/transport_layer/control_info.rs` -/

/-- `BaudRate` (control_info.rs lines 18–28). -/
inductive BaudRate where
  | Rate300
  | Rate600
  | Rate1200
  | Rate2400
  | Rate4800
  | Rate9600
  | Rate19200
  | Rate38400
  deriving DecidableEq, Repr

/-- `ApplicationError` of control_info.rs (lines 30–52) — the application
error report payload.  (Named `ApplicationErrorCI` here because header.rs
declares a distinct Rust type of the same name, modelled above.) -/
inductive ApplicationErrorCI where
  | Unspecified
  | CIFieldError
  | BufferOverflow
  | RecordOverflow
  | RecordError
  | DIFEOverflow
  | VIFEOverflow
  | ApplicationBusy
  | CreditOverflow
  | NoFunction
  | DataError
  | RoutingOrRelayingError
  | AccessViolation
  | ParameterError
  | SizeError
  | SecurityError
  | SecurityMechanismNotSupported
  | InadequateSecurityMethod
  | DynamicError (r : Record)
  | ManufacturerSpecific (code : Nat) (data : List Nat)

/-- `ApplicationError::parse` of control_info.rs (lines 54–100): empty input
is `Unspecified`; otherwise one error-code byte (0xF0 carries a dynamic
record, 0xF1–0xFF manufacturer data, unassigned codes are reserved). -/
def ApplicationErrorCI.parse (input : List Nat) : MBRes (ApplicationErrorCI × List Nat) :=
  match input with
  | [] => .ok (.Unspecified, [])
  | b :: rest =>
    let code := b % 256
    if code = 0x00 then .ok (.Unspecified, rest)
    else if code = 0x01 then .ok (.CIFieldError, rest)
    else if code = 0x02 then .ok (.BufferOverflow, rest)
    else if code = 0x03 then .ok (.RecordOverflow, rest)
    else if code = 0x04 then .ok (.RecordError, rest)
    else if code = 0x05 then .ok (.DIFEOverflow, rest)
    else if code = 0x06 then .ok (.VIFEOverflow, rest)
    else if code = 0x08 then .ok (.ApplicationBusy, rest)
    else if code = 0x09 then .ok (.CreditOverflow, rest)
    else if code = 0x11 then .ok (.NoFunction, rest)
    else if code = 0x12 then .ok (.DataError, rest)
    else if code = 0x13 then .ok (.RoutingOrRelayingError, rest)
    else if code = 0x14 then .ok (.AccessViolation, rest)
    else if code = 0x15 then .ok (.ParameterError, rest)
    else if code = 0x16 then .ok (.SizeError, rest)
    else if code = 0x20 then .ok (.SecurityError, rest)
    else if code = 0x21 then .ok (.SecurityMechanismNotSupported, rest)
    else if code = 0x22 then .ok (.InadequateSecurityMethod, rest)
    else if code = 0xF0 then
      match Record.parse rest with
      | .error e => .error e
      | .ok (r, rest2) => .ok (.DynamicError r, rest2)
    else if 0xF1 ≤ code then .ok (.ManufacturerSpecific code rest, [])
    else .error (.fail ["reserved error code"])

/-- `MBusMessage` (control_info.rs lines 103–129). -/
inductive MBusMessage where
  | ApplicationReset (h : TPLHeader)
  | ApplicationSelect (h : TPLHeader) (data : List Nat)
  | SelectedApplicationRequest (h : TPLHeader)
  | SelectedApplicationResponse (h : TPLHeader) (data : List Nat)
  | SelectionOfDevice (data : List Nat)
  | SetBaudRate (r : BaudRate)
  | SynchroniseAction
  | TimeAdjustmentToDevice (h : TPLHeader) (data : List Nat)
  | TimeSyncToDevice (h : TPLHeader) (data : List Nat)
  | AlarmFromDevice (h : TPLHeader) (data : List Nat)
  | ApplicationErrorFromDevice (h : TPLHeader) (e : ApplicationErrorCI)
  | CommandToDevice (h : TPLHeader) (data : List Nat)
  | ResponseFromDevice (h : TPLHeader) (f : Frame)
  | AuthenticationAndFrgamentation (data : List Nat)
  | Dlms (ci : Nat) (h : TPLHeader) (data : List Nat)
  | ImageTransfer (ci : Nat) (h : TPLHeader) (data : List Nat)
  | ManufacturerSpecific (ci : Nat) (data : List Nat)
  | SecurityTransfer (ci : Nat) (h : TPLHeader) (data : List Nat)
  | SpecificUsage (ci : Nat) (h : TPLHeader) (data : List Nat)
  | Wireless (ci : Nat) (h : TPLHeader)

/-- The no-header CI class of `MBusMessage::parse` (control_info.rs lines
139–151).  Note 0x50 appears in none of the three classes. -/
def ciNoHeader (ci : Nat) : Bool :=
  ci ≤ 0x1F ∨ ci = 0x54 ∨ ci = 0x5C ∨ ci = 0x66 ∨ ci = 0x69 ∨
  (0x70 ≤ ci ∧ ci ≤ 0x71) ∨ (0x78 ≤ ci ∧ ci ≤ 0x79) ∨ ci = 0x81 ∨ ci = 0x83 ∨
  ci = 0x86 ∨ ci = 0x89 ∨ (0x8C ≤ ci ∧ ci ≤ 0x90) ∨ (0xA0 ≤ ci ∧ ci ≤ 0xBF)

/-- The short-header CI class (control_info.rs lines 152–155). -/
def ciShortHeader (ci : Nat) : Bool :=
  ci = 0x5A ∨ ci = 0x61 ∨ ci = 0x65 ∨ ci = 0x67 ∨ ci = 0x6A ∨ ci = 0x6E ∨
  ci = 0x74 ∨ ci = 0x7A ∨ ci = 0x7B ∨ ci = 0x7D ∨ ci = 0x8A ∨ ci = 0x88 ∨
  ci = 0x9E ∨ ci = 0xC1 ∨ ci = 0xC4

/-- The long-header CI class (control_info.rs lines 156–181). -/
def ciLongHeader (ci : Nat) : Bool :=
  ci = 0x53 ∨ ci = 0x55 ∨ ci = 0x5B ∨ ci = 0x5F ∨ ci = 0x60 ∨ ci = 0x64 ∨
  ci = 0x68 ∨ (0x6B ≤ ci ∧ ci ≤ 0x6D) ∨ ci = 0x6F ∨ ci = 0x72 ∨ ci = 0x73 ∨
  ci = 0x75 ∨ ci = 0x7C ∨ ci = 0x80 ∨ ci = 0x82 ∨ ci = 0x84 ∨ ci = 0x85 ∨
  ci = 0x87 ∨ ci = 0x8B ∨ ci = 0x9F ∨ ci = 0xC0 ∨ ci = 0xC2 ∨ ci = 0xC3 ∨
  ci = 0xC5

/-- The CI-keyed body dispatch of `MBusMessage::parse` (control_info.rs lines
196–250), applied after the header has been parsed.  Arm order follows the
Rust `match`.  The `todo!` arms (format frame, compact frame) and the
`unreachable!` fallthrough are panics. -/
def mbusMessageBody (ci : Nat) (header : TPLHeader) (input : List Nat) :
    MBRes (MBusMessage × List Nat) :=
  if ci ≤ 0x1F ∨ ci = 0x60 ∨ ci = 0x61 ∨ ci = 0x7C ∨ ci = 0x7D then
    .ok (.Dlms ci header input, [])
  else if ci = 0x5F ∨ ci = 0x9E ∨ ci = 0x9F then
    .ok (.SpecificUsage ci header input, [])
  else if (0x80 ≤ ci ∧ ci ≤ 0x83) ∨ (0x86 ≤ ci ∧ ci ≤ 0x8F) then
    .ok (.Wireless ci header, input)
  else if ci = 0x90 then .ok (.AuthenticationAndFrgamentation input, [])
  else if 0xA0 ≤ ci ∧ ci ≤ 0xB7 then .ok (.ManufacturerSpecific ci input, [])
  else if 0xC0 ≤ ci ∧ ci ≤ 0xC2 then .ok (.ImageTransfer ci header input, [])
  else if 0xC3 ≤ ci ∧ ci ≤ 0xC5 then .ok (.SecurityTransfer ci header input, [])
  else if ci = 0x50 ∨ ci = 0x53 then
    if input.isEmpty then .ok (.ApplicationReset header, [])
    else .ok (.ApplicationSelect header input, [])
  else if ci = 0x54 ∨ ci = 0x55 then .ok (.SelectedApplicationRequest header, input)
  else if 0x66 ≤ ci ∧ ci ≤ 0x68 then .ok (.SelectedApplicationResponse header input, [])
  else if ci = 0x52 then .ok (.SelectionOfDevice input, [])
  else if ci = 0x5C then .ok (.SynchroniseAction, input)
  else if 0xB8 ≤ ci ∧ ci ≤ 0xBF then
    .ok (.SetBaudRate
      (if ci = 0xB8 then .Rate300 else if ci = 0xB9 then .Rate600
       else if ci = 0xBA then .Rate1200 else if ci = 0xBB then .Rate2400
       else if ci = 0xBC then .Rate4800 else if ci = 0xBD then .Rate9600
       else if ci = 0xBE then .Rate19200 else .Rate38400), input)
  else if ci = 0x6C then .ok (.TimeSyncToDevice header input, [])
  else if ci = 0x6D then .ok (.TimeAdjustmentToDevice header input, [])
  else if ci = 0x51 ∨ ci = 0x5A ∨ ci = 0x5B then .ok (.CommandToDevice header input, [])
  else if 0x69 ≤ ci ∧ ci ≤ 0x6B then .error (.crash "not yet implemented: format frame")
  else if 0x6E ≤ ci ∧ ci ≤ 0x70 then
    match ApplicationErrorCI.parse input with
    | .error e => .error e
    | .ok (err, rest) => .ok (.ApplicationErrorFromDevice header err, rest)
  else if ci = 0x71 ∨ ci = 0x74 ∨ ci = 0x75 then .ok (.AlarmFromDevice header input, [])
  else if ci = 0x72 ∨ ci = 0x78 ∨ ci = 0x7A then
    match Frame.parse input with
    | .error e => .error e
    | .ok (f, rest) => .ok (.ResponseFromDevice header f, rest)
  else if ci = 0x73 ∨ ci = 0x79 ∨ ci = 0x7B then
    .error (.crash "not yet implemented: compact frame")
  else .error (.crash "internal error: entered unreachable code")

/-- `MBusMessage::parse` (control_info.rs lines 132–251): read the CI byte,
classify it into a header shape (reserved CI values fail), parse that
header, then dispatch the body on the CI. -/
def MBusMessage.parse (input : List Nat) : MBRes (MBusMessage × List Nat) :=
  match input with
  | [] => .error (.fail ["CI field"])
  | b :: rest =>
    let ci := b % 256
    match
      (if ciNoHeader ci then .ok (TPLHeader.None, rest)
       else if ciShortHeader ci then ctxLabel "short header" (ShortHeader.parse rest)
       else if ciLongHeader ci then ctxLabel "long header" (LongHeader.parse rest)
       else .error (.fail ["reserved CI field"])) with
    | .error e => .error e
    | .ok (header, rest2) => mbusMessageBody ci header rest2

/-! ## `src/parse/link_layer.rs` -/

/-- `PrimaryControlMessage` (link_layer.rs lines 22–31). -/
inductive PrimaryControlMessage where
  | ResetRemoteLink
  | ResetUserProcess
  | SendUserDataConfirmed
  | SendUserDataUnconfirmed
  | RequestAccessDemand
  | RequestLinkStatus
  | RequestUserData1
  | RequestUserData2
  deriving DecidableEq, Repr

/-- `SecondaryControlMessage` (link_layer.rs lines 34–42). -/
inductive SecondaryControlMessage where
  | ACK
  | NACK
  | UserData
  | UserDataUnavailable
  | Status
  | LinkNotFunctioning
  | LinkNotImplemented
  deriving DecidableEq, Repr

/-- `DataFlowControl` (link_layer.rs lines 45–48). -/
inductive DataFlowControl where
  | Continue
  | Pause
  deriving DecidableEq, Repr

/-- `Control` (link_layer.rs lines 51–61). -/
inductive Control where
  | Primary (frame_count_bit : Bool) (message : PrimaryControlMessage)
  | Secondary (access_demand : Bool) (data_flow_control : DataFlowControl)
      (message : SecondaryControlMessage)
  deriving DecidableEq, Repr

/-- `Control::parse` (link_layer.rs lines 63–115) on its single byte.  Bit
layout `{reserved(1), PRM(1), FCB/ACD(1), FCV/DFC(1), function(4)}`; the
reserved bit must be clear, and the `verify_map` match (both 14 and 15 map
to `LinkNotFunctioning`) rejects unassigned function codes. -/
def Control.parseByte (b : Nat) : MBRes Control :=
  if u8bit 7 b then .error (.fail ["reserved"])
  else
    let prm := u8bit 6 b
    let fcb_acd := u8bit 5 b
    let fcv_dfc := u8bit 4 b
    let function := u8bits 0 4 b
    if prm then
      if fcv_dfc = false ∧ function = 0 then .ok (.Primary fcb_acd .ResetRemoteLink)
      else if fcv_dfc = false ∧ function = 1 then .ok (.Primary fcb_acd .ResetUserProcess)
      else if function = 2 then .error (.fail [])
      else if fcv_dfc = true ∧ function = 3 then .ok (.Primary fcb_acd .SendUserDataConfirmed)
      else if fcv_dfc = false ∧ function = 4 then .ok (.Primary fcb_acd .SendUserDataUnconfirmed)
      else if fcv_dfc = false ∧ function = 8 then .ok (.Primary fcb_acd .RequestAccessDemand)
      else if fcv_dfc = false ∧ function = 9 then .ok (.Primary fcb_acd .RequestLinkStatus)
      else if fcv_dfc = true ∧ function = 10 then .ok (.Primary fcb_acd .RequestUserData1)
      else if fcv_dfc = true ∧ function = 11 then .ok (.Primary fcb_acd .RequestUserData2)
      else .error (.fail [])
    else
      let dfc := if fcv_dfc then DataFlowControl.Pause else DataFlowControl.Continue
      if function = 0 then .ok (.Secondary fcb_acd dfc .ACK)
      else if function = 1 then .ok (.Secondary fcb_acd dfc .NACK)
      else if function = 8 then .ok (.Secondary fcb_acd dfc .UserData)
      else if function = 9 then .ok (.Secondary fcb_acd dfc .UserDataUnavailable)
      else if function = 11 then .ok (.Secondary fcb_acd dfc .Status)
      else if function = 14 then .ok (.Secondary fcb_acd dfc .LinkNotFunctioning)
      else if function = 15 then .ok (.Secondary fcb_acd dfc .LinkNotFunctioning)
      else .error (.fail [])

/-- `Packet` (link_layer.rs lines 180–192). -/
inductive Packet where
  | Ack
  | Short (control : Control) (address : Nat)
  | Long (control : Control) (address : Nat) (message : MBusMessage)

/-- `data.iter().copied().reduce(u8::wrapping_add).unwrap_or_default()`
(link_layer.rs lines 233–237): the wrapping byte sum of the payload. -/
def checksum8 : List Nat → Nat
  | [] => 0
  | h :: t => t.foldl (fun acc b => wadd acc b) (h % 256)

/-- The checksum/tail stage of `parse_variable` (link_layer.rs lines
226–259): `data` is the payload slice; after it come the checksum byte and
the 0x16 frame tail; the wrapping sum of control, address and payload must
equal the checksum byte, and then the payload is handed to
`MBusMessage::parse` (whose own leftover is discarded). -/
def pv_check (c : Nat) (control : Control) (a : Nat) (data rest6 : List Nat) :
    MBRes (Packet × List Nat) :=
  match rest6 with
  | ck :: tl :: r6 =>
    if ¬(tl % 256 = 0x16) then .error (.fail ["frame tail"])
    else if ¬(ck % 256 = wadd (wadd (checksum8 data) (c % 256)) (a % 256)) then
      .error (.fail ["checksum verify"])
    else
      match MBusMessage.parse data with
      | .error e => .error e
      | .ok (message, _) => .ok (.Long control (a % 256) message, r6)
  | _ => .error (.fail ["checksum"])

/-- The payload stage of `parse_variable` (link_layer.rs lines 215–231):
the `input.len() < length` guard, then the `length − 2` slice — a Rust
`usize` subtraction that panics when `length < 2`. -/
def pv_body (length c : Nat) (control : Control) (a : Nat) (r5 : List Nat) :
    MBRes (Packet × List Nat) :=
  if r5.length < length then .error (.fail ["packet data"])
  else if length < 2 then .error (.crash "attempt to subtract with overflow")
  else pv_check c control a (r5.take (length - 2)) (r5.drop (length - 2))

/-- The address-byte stage of `parse_variable` (link_layer.rs line 212). -/
def pv_address (length c : Nat) (control : Control) (r4 : List Nat) :
    MBRes (Packet × List Nat) :=
  match r4 with
  | [] => .error (.fail ["address byte"])
  | a :: r5 => pv_body length c control a r5

/-- The control-byte stage of `parse_variable` (link_layer.rs lines
207–214). -/
def pv_control (length : Nat) (r3 : List Nat) : MBRes (Packet × List Nat) :=
  match r3 with
  | [] => .error (.fail ["control byte"])
  | c :: r4 =>
    match ctxLabel "control byte" (Control.parseByte c) with
    | .error e => .error e
    | .ok control => pv_address length c control r4

/-- The second-frame-marker stage of `parse_variable` (link_layer.rs lines
203–206). -/
def pv_marker (length : Nat) (r2 : List Nat) : MBRes (Packet × List Nat) :=
  match r2 with
  | [] => .error (.fail ["frame marker"])
  | m :: r3 =>
    if ¬(m % 256 = 0x68) then .error (.fail ["frame marker"]) else pv_control length r3

/-- The length-echo stage of `parse_variable` (link_layer.rs lines
198–202). -/
def pv_len (length : Nat) (r1 : List Nat) : MBRes (Packet × List Nat) :=
  match r1 with
  | [] => .error (.fail ["length confirmation"])
  | L1 :: r2 =>
    if ¬(L1 % 256 = length) then .error (.fail ["length confirmation"])
    else pv_marker length r2

/-- `parse_variable` (link_layer.rs lines 194–260), entered after the
initial 0x68, staged through the helpers above in source order: length
byte, length echo, second frame marker, control byte, address byte, payload
guard and slice, checksum byte, frame tail, checksum verification,
transport-layer parse. -/
def parse_variable (input : List Nat) : MBRes (Packet × List Nat) :=
  match input with
  | [] => .error (.fail ["length"])
  | L0 :: r1 => pv_len (L0 % 256) r1

/-- `parse_fixed` (link_layer.rs lines 262–287), entered after the initial
0x10: control, address, checksum, 0x16 tail, then the checksum check. -/
def parse_fixed (input : List Nat) : MBRes (Packet × List Nat) :=
  match input with
  | [] => .error (.fail ["control byte"])
  | c :: r1 =>
    match ctxLabel "control byte" (Control.parseByte c) with
    | .error e => .error e
    | .ok control =>
      match r1 with
      | [] => .error (.fail ["address byte"])
      | a :: r2 =>
        match r2 with
        | [] => .error (.fail ["checksum"])
        | ck :: r3 =>
          match r3 with
          | [] => .error (.fail ["frame tail"])
          | t :: r4 =>
            if ¬(t % 256 = 0x16) then .error (.fail ["frame tail"])
            else if ¬(ck % 256 = wadd (c % 256) (a % 256)) then
              .error (.fail ["checksum verify"])
            else .ok (.Short control (a % 256), r4)

/-- `Packet::parse` (link_layer.rs lines 293–308): dispatch on the first
byte (0x68 long, 0x10 short, 0xE5 ack); `cut_err` commits once a frame
header byte is recognised. -/
def Packet.parse (input : List Nat) : MBRes (Packet × List Nat) :=
  match input with
  | [] => .error (.fail [])
  | b :: rest =>
    if b % 256 = 0x68 then ctxLabel "long frame header" (parse_variable rest)
    else if b % 256 = 0x10 then ctxLabel "short frame header" (parse_fixed rest)
    else if b % 256 = 0xE5 then .ok (.Ack, rest)
    else .error (.fail [])

/-! ## Helper lemmas -/

theorem ctxLabel_ok (label : String) (x : α) (r : MBRes α) :
    ctxLabel label r = .ok x ↔ r = .ok x := by
  unfold ctxLabel
  constructor
  · intro h
    cases r with
    | ok y => simpa using h
    | error e => cases e <;> simp_all
  · intro h; subst h; rfl

theorem u8bit7_of_lt (b : Nat) (h : b < 128) : u8bit 7 b = false := by
  simp [u8bit, u8bits, Nat.div_eq_of_lt h]

theorem u8bits07_of_lt (b : Nat) (h : b < 128) : u8bits 0 7 b = b := by
  simp [u8bits]
  omega

/-! ## Claim C2 -/

/-- C2 (code_bug): for every transport-layer payload whose CI byte is 0x50,
`MBusMessage::parse` fails with the "reserved CI field" context — 0x50 is
missing from the header-shape classification (control_info.rs lines
139–191), so the `0x50 | 0x53` application-message arm (lines 210–219) is
unreachable for it.  This contradicts the claim that every such payload
parses to `ApplicationReset`/`ApplicationSelect`. -/
theorem c2_ci_0x50_reserved (rest : List Nat) :
    MBusMessage.parse (0x50 :: rest) = .error (.fail ["reserved CI field"]) := rfl

/-! ## Claim C4 -/

/-- C4 (code_bug): `unpack_manufacturer_code` decodes the middle letter from
`packed >> 2` instead of the claimed (and spec-mandated) `packed >> 5`.  On
the packed code for "KAM" — produced by `pack_manufacturer_code` in the same
source file, whose inverse is `>> 10`/`>> 5`/`>> 0` — the function returns
"KKM"; the spec-modelled TPL decoder returns "KAM". -/
theorem c4_unpack_middle_letter_bug :
    pack_manufacturer_code 'K' 'A' 'M' = 11309 ∧
    unpack_manufacturer_code 11309 = .ok "KKM" ∧
    tpl_unpack_manufacturer_code 11309 = some "KAM" ∧
    ("KKM" : String) ≠ "KAM" := by
  refine ⟨rfl, rfl, rfl, by decide⟩

/-! ## Claim C5 -/

/-- C5 counterexample: the claim fails on the code in two ways.  At input
`[0x01, 0x00]` the mode field is 0 but `info_low = 1`, and the parse returns
an error instead of the claimed `SecurityMode::None`.  At input
`[0x00, 0x08]` the mode field is 1 (neither 0 nor in the reserved set), and
the code panics (`todo!`) instead of returning the claimed error. -/
theorem c5_counterexample :
    u8bits 3 5 0x00 = 0 ∧
    SecurityMode.parse [0x01, 0x00] = .error (.fail []) ∧
    u8bits 3 5 0x08 = 1 ∧
    SecurityMode.parse [0x00, 0x08]
      = .error (.crash "Packet encryption is not yet supported (mode 1)") := by
  refine ⟨rfl, rfl, rfl, rfl⟩

/-- C5 amended: `SecurityMode::parse` reads two bytes split little-endian as
8-bit info-low, 5-bit mode, 3-bit info-high.  Mode 0 yields `None` only when
both info fields are zero and is a parse error otherwise; modes 6, 11, 12,
14 and 16–31 yield `Reserved(raw)`; every remaining mode panics via `todo!`
(it is not a returned error). -/
theorem c5_amended (b0 b1 : Nat) (rest : List Nat) (h0 : b0 < 256) (h1 : b1 < 256) :
    SecurityMode.parse (b0 :: b1 :: rest) =
      (if b1 / 8 = 0 then
        (if b1 % 8 = 0 ∧ b0 = 0 then .ok (.None, rest) else .error (.fail []))
      else if b1 / 8 = 6 ∨ b1 / 8 = 11 ∨ b1 / 8 = 12 ∨ b1 / 8 = 14 ∨ 16 ≤ b1 / 8 then
        .ok (.Reserved (b0 + 256 * b1), rest)
      else
        .error (.crash
          ("Packet encryption is not yet supported (mode " ++ toString (b1 / 8) ++ ")"))) := by
  have hm : u8bits 3 5 b1 = b1 / 8 := by unfold u8bits; omega
  have hl : u8bits 0 8 b0 = b0 := by unfold u8bits; omega
  have hh : u8bits 0 3 b1 = b1 % 8 := by unfold u8bits; omega
  simp only [SecurityMode.parse, hm, hl, hh, Nat.mod_eq_of_lt h0, Nat.mod_eq_of_lt h1]

/-- C5 amended, witness: the reserved mode 6 at a concrete input. -/
theorem c5_amended_witness :
    SecurityMode.parse [0x34, 0x30, 0x99] = .ok (.Reserved 0x3034, [0x99]) := by
  have h := c5_amended 0x34 0x30 [0x99] (by decide) (by decide)
  simpa using h

/-! ## Claim C1 -/

/-- C1 counterexample: with the initial VIF byte 0xFB (7-bit value 0x7B,
extension bit set) and VIFE 0x02, `ValueInfoBlock::parse` decodes via
Table 14 (`ReactiveEnergy`), not via Table 12 (`Credit`) as the claim
states. -/
theorem c1_counterexample :
    ValueInfoBlock.parse [0xFB, 0x02] = .ok (⟨.ReactiveEnergy 0, none⟩, []) ∧
    parse_table_12 0x02 = .Credit (-1) ∧
    ValueType.ReactiveEnergy 0 ≠ ValueType.Credit (-1) := by
  refine ⟨rfl, rfl, by simp⟩

/-- C1 amended: the table assignment is the reverse of the claim.  An
initial VIF byte with 7-bit value 0x7B (extension 1, extension bit set)
decodes its VIFE via Table 14; 0x7D (extension 2) decodes its VIFE via
Table 12, unless that VIFE is itself 0x7D, in which case one further byte is
read and decoded via Table 13. -/
theorem c1_amended (v : Nat) (rest : List Nat) (hv : v < 128) :
    ValueInfoBlock.parse (0xFB :: v :: rest) = .ok (⟨parse_table_14 v, none⟩, rest) ∧
    (v ≠ 0x7D → ValueInfoBlock.parse (0xFD :: v :: rest) = .ok (⟨parse_table_12 v, none⟩, rest)) ∧
    ValueInfoBlock.parse (0xFD :: 0xFD :: v :: rest) = .ok (⟨parse_table_13 v, none⟩, rest) := by
  have ev : parse_vif_byte v = (false, v) := by
    unfold parse_vif_byte
    rw [u8bit7_of_lt v hv, u8bits07_of_lt v hv]
  have e1 : parse_vif_byte 0xFB = (true, 0x7B) := rfl
  have e2 : parse_vif_byte 0xFD = (true, 0x7D) := rfl
  refine ⟨?_, fun hne => ?_, ?_⟩
  · simp only [ValueInfoBlock.parse, e1, ev, finishVIB]
    norm_num
  · simp only [ValueInfoBlock.parse, e2, ev, finishVIB]
    norm_num [hne]
  · simp only [ValueInfoBlock.parse, e2, ev, finishVIB]
    norm_num

/-- C1 amended, witness at VIFE value 0x02. -/
theorem c1_amended_witness :
    ValueInfoBlock.parse [0xFB, 0x02] = .ok (⟨parse_table_14 0x02, none⟩, []) ∧
    ValueInfoBlock.parse [0xFD, 0x02] = .ok (⟨parse_table_12 0x02, none⟩, []) ∧
    ValueInfoBlock.parse [0xFD, 0xFD, 0x02] = .ok (⟨parse_table_13 0x02, none⟩, []) := by
  have h := c1_amended 0x02 [] (by decide)
  exact ⟨h.1, h.2.1 (by decide), h.2.2⟩

/-! ## Claim C3 -/

/-- C3 counterexample: a record whose DIB declares `Binary(2)` but whose VIB
value-type is `DSTTypeK` (bytes 0x02, 0xFD, 0x72) is *not* rewritten to
`Invalid` and is *not* decoded numerically: `Record::parse` keeps
`DSTTypeK` and applies the four-byte Type K date parser to the payload. -/
theorem c3_counterexample :
    Record.parse [0x02, 0xFD, 0x72, 0x00, 0x21, 0x21, 0x11]
      = .ok (⟨⟨.Binary 2, .InstantaneousValue, 0, 0, 0, false⟩,
             ⟨.DSTTypeK, none⟩,
             .DST ⟨0, 1, 1, 1, 1, false, -1, 1⟩⟩, []) ∧
    RawDataType.Binary 2 ≠ RawDataType.Binary 4 ∧
    ValueType.DSTTypeK ≠ ValueType.Invalid 0x6D ∧
    ValueType.DSTTypeK ≠ ValueType.Invalid 0x6C := by
  refine ⟨rfl, by simp, by simp, by simp⟩

/-- C3 amended: `handle_date_types` width-checks only `TypeGDate` (kept
exactly for DIB raw-type `Binary(2)`, otherwise rewritten to
`Invalid(0x6C)` and decoded numerically) and resolves `VariableDateTime` by
DIB raw-type (`Binary(4)` → `TypeFDateTime`, `Binary(3)` → `TypeJTime`,
`Binary(5)` → `TypeIDateTime`, `LVAR` → `TypeMDatetime`, otherwise
`Invalid(0x6D)`); the `TypeFDateTime`, `TypeJTime`, `TypeIDateTime` and
`DSTTypeK` value-types pass through unchanged for every DIB raw-type, so
their date parsers are applied without any width check. -/
theorem hdtG_eval (rt : RawDataType) (fn : DataFunction) (st ta de : Nat) (ob : Bool)
    (e : Option (List Nat)) :
    (handle_date_types ⟨rt, fn, st, ta, de, ob⟩ ⟨.TypeGDate, e⟩).value_type =
      if rt = .Binary 2 then .TypeGDate else .Invalid 0x6C := by
  cases rt with
  | Binary n => rcases n with _ | _ | _ | n <;> simp [handle_date_types]
  | None => rfl
  | Real => rfl
  | BCD n => rfl
  | LVAR => rfl

theorem hdtVDT_eval (rt : RawDataType) (fn : DataFunction) (st ta de : Nat) (ob : Bool)
    (e : Option (List Nat)) :
    (handle_date_types ⟨rt, fn, st, ta, de, ob⟩ ⟨.VariableDateTime, e⟩).value_type =
      (match rt with
       | .LVAR => .TypeMDatetime
       | .Binary 4 => .TypeFDateTime
       | .Binary 3 => .TypeJTime
       | .Binary 5 => .TypeIDateTime
       | _ => .Invalid 0x6D) := by
  cases rt with
  | Binary n => rcases n with _ | _ | _ | _ | _ | _ | n <;> rfl
  | None => rfl
  | Real => rfl
  | BCD n => rfl
  | LVAR => rfl

theorem c3_amended (dib : DataInfoBlock) (e : Option (List Nat)) :
    ((handle_date_types dib ⟨.TypeGDate, e⟩).value_type = .TypeGDate ↔
      dib.raw_type = .Binary 2) ∧
    (dib.raw_type ≠ .Binary 2 →
      (handle_date_types dib ⟨.TypeGDate, e⟩).value_type = .Invalid 0x6C) ∧
    (handle_date_types dib ⟨.DSTTypeK, e⟩).value_type = .DSTTypeK ∧
    (handle_date_types dib ⟨.TypeFDateTime, e⟩).value_type = .TypeFDateTime ∧
    (handle_date_types dib ⟨.TypeJTime, e⟩).value_type = .TypeJTime ∧
    (handle_date_types dib ⟨.TypeIDateTime, e⟩).value_type = .TypeIDateTime ∧
    ((handle_date_types dib ⟨.VariableDateTime, e⟩).value_type =
      match dib.raw_type with
      | .LVAR => .TypeMDatetime
      | .Binary 4 => .TypeFDateTime
      | .Binary 3 => .TypeJTime
      | .Binary 5 => .TypeIDateTime
      | _ => .Invalid 0x6D) := by
  obtain ⟨rt, fn, st, ta, de, ob⟩ := dib
  refine ⟨?_, ?_, rfl, rfl, rfl, rfl, hdtVDT_eval rt fn st ta de ob e⟩
  · rw [hdtG_eval]
    by_cases hB : rt = RawDataType.Binary 2
    · simp [hB]
    · simp [hB]
  · intro hne
    rw [hdtG_eval]
    simp only [DataInfoBlock.raw_type] at hne
    simp [hne]

/-- C3 amended, witness: a `BCD(2)` DIB leaves `DSTTypeK` untouched and
rewrites `TypeGDate` to `Invalid(0x6C)`. -/
theorem c3_amended_witness :
    (handle_date_types ⟨.BCD 2, .InstantaneousValue, 0, 0, 0, false⟩
      ⟨.TypeGDate, none⟩).value_type = .Invalid 0x6C ∧
    (handle_date_types ⟨.BCD 2, .InstantaneousValue, 0, 0, 0, false⟩
      ⟨.DSTTypeK, none⟩).value_type = .DSTTypeK := by
  have h := c3_amended ⟨.BCD 2, .InstantaneousValue, 0, 0, 0, false⟩ none
  exact ⟨h.2.1 (by simp), h.2.2.1⟩

/-- `parse_binary_signed` on exactly two available bytes. -/
theorem parse_binary_signed_two (b0 b1 : Nat) (r : List Nat) :
    parse_binary_signed 2 (b0 :: b1 :: r) = .ok (toSigned 2 (b0 % 256 + 256 * (b1 % 256)), r) := by
  unfold parse_binary_signed
  norm_num [leVal]

/-! ## Claim C10 -/

/-- C10: the primary-table date codes 0x6C and 0x6D decode to `Any` (the
date arm is commented out in `parse_table_10`), a VIB starting with such a
byte parses to value-type `Any` with no extra VIFEs, `handle_date_types`
leaves `Any` untouched for every DIB, and a record with DIF `Binary(2)` and
such a VIF decodes its payload as a plain little-endian signed number rather
than through any date parser. -/
theorem c10_primary_date_codes_are_any (v : Nat) (rest : List Nat)
    (hv : v = 0x6C ∨ v = 0x6D) :
    parse_table_10 v = .Any ∧
    ValueInfoBlock.parse (v :: rest) = .ok (⟨.Any, none⟩, rest) ∧
    (∀ (dib : DataInfoBlock) (e : Option (List Nat)),
      handle_date_types dib ⟨.Any, e⟩ = ⟨.Any, e⟩) ∧
    (∀ (b0 b1 : Nat) (rest2 : List Nat),
      Record.parse (0x02 :: v :: b0 :: b1 :: rest2) =
        .ok (⟨⟨.Binary 2, .InstantaneousValue, 0, 0, 0, false⟩, ⟨.Any, none⟩,
              .Signed (toSigned 2 (b0 % 256 + 256 * (b1 % 256)))⟩, rest2)) := by
  have ht : parse_table_10 v = .Any := by
    rcases hv with rfl | rfl <;> rfl
  have hvib : ValueInfoBlock.parse (v :: rest) = .ok (⟨.Any, none⟩, rest) := by
    rcases hv with rfl | rfl <;> simp [ValueInfoBlock.parse, parse_vif_byte, finishVIB, ht] <;> rfl
  refine ⟨ht, hvib, fun dib e => rfl, fun b0 b1 rest2 => ?_⟩
  have hvib2 : ValueInfoBlock.parse (v :: b0 :: b1 :: rest2)
      = .ok (⟨.Any, none⟩, b0 :: b1 :: rest2) := by
    rcases hv with rfl | rfl <;> simp [ValueInfoBlock.parse, parse_vif_byte, finishVIB, ht] <;> rfl
  have hdib : DataInfoBlock.parse (0x02 :: v :: b0 :: b1 :: rest2)
      = .ok (⟨.Binary 2, .InstantaneousValue, 0, 0, 0, false⟩, v :: b0 :: b1 :: rest2) := rfl
  have hps := parse_binary_signed_two b0 b1 rest2
  have hstep : parse_record_data ⟨.Binary 2, .InstantaneousValue, 0, 0, 0, false⟩
        ⟨.Any, none⟩ (b0 :: b1 :: rest2)
      = (match parse_binary_signed 2 (b0 :: b1 :: rest2) with
         | .error e => .error e
         | .ok (w, r) => (.ok (.Signed w, r) : MBRes (DataType × List Nat))) := rfl
  have hprd : parse_record_data ⟨.Binary 2, .InstantaneousValue, 0, 0, 0, false⟩
        ⟨.Any, none⟩ (b0 :: b1 :: rest2)
      = .ok (.Signed (toSigned 2 (b0 % 256 + 256 * (b1 % 256))), rest2) := by
    rw [hstep, hps]
  have hh : handle_date_types ⟨.Binary 2, .InstantaneousValue, 0, 0, 0, false⟩
      (⟨.Any, none⟩ : ValueInfoBlock) = ⟨.Any, none⟩ := rfl
  simp only [Record.parse, hdib, hvib2, hh, hprd]

/-- C10 witness at VIF 0x6C with payload bytes 0x34 0x12. -/
theorem c10_witness :
    parse_table_10 0x6C = .Any ∧
    ValueInfoBlock.parse [0x6C] = .ok (⟨.Any, none⟩, []) ∧
    Record.parse [0x02, 0x6C, 0x34, 0x12] =
      .ok (⟨⟨.Binary 2, .InstantaneousValue, 0, 0, 0, false⟩, ⟨.Any, none⟩,
            .Signed (toSigned 2 (0x34 % 256 + 256 * (0x12 % 256)))⟩, []) := by
  have h := c10_primary_date_codes_are_any 0x6C [] (Or.inl rfl)
  exact ⟨h.1, h.2.1, h.2.2.2 0x34 0x12 []⟩

/-! ## Claim C6 -/

/-- C6 counterexample: the two-byte input 00 00 has month 0, which lies
outside the claimed set `1..=12 ∪ {15}`, yet `TypeGDate::parse` succeeds
(the source verify is `0..=12 | 15`, deliberately admitting month 0). -/
theorem c6_counterexample :
    TypeGDate.parse [0x00, 0x00] = .ok (⟨0, 0, 0⟩, []) ∧
    ¬(1 ≤ (0 : Nat) ∧ (0 : Nat) ≤ 12 ∨ (0 : Nat) = 15) := by
  exact ⟨rfl, by decide⟩

/-- The full behaviour of `parse_dmy` on two bytes, in terms of the decoded
fields `day = b0 % 32`, `month = b1 % 16`, `year = b0/32 + (b1/16)*8`. -/
theorem parse_dmy_eval (b0 b1 : Nat) (h0 : b0 < 256) (h1 : b1 < 256) :
    parse_dmy b0 b1 =
      (if b0 = 0xFF ∧ b1 = 0xFF then .error (.fail ["invalid check"])
       else if ¬(b1 % 16 ≤ 12 ∨ b1 % 16 = 15) then .error (.fail ["month"])
       else if ¬(b0 / 32 + b1 / 16 * 8 ≤ 99 ∨ b0 / 32 + b1 / 16 * 8 = 127) then
         .error (.fail ["year"])
       else .ok (b0 % 32, b1 % 16, b0 / 32 + b1 / 16 * 8)) := by
  have hyu : u8bits 5 3 b0 = b0 / 32 := by unfold u8bits; omega
  have hday : u8bits 0 5 b0 = b0 % 32 := by unfold u8bits; omega
  have hyl : u8bits 4 4 b1 = b1 / 16 := by unfold u8bits; omega
  have hmon : u8bits 0 4 b1 = b1 % 16 := by unfold u8bits; omega
  have hdayle : b0 % 32 ≤ 31 := by omega
  unfold parse_dmy
  rw [Nat.mod_eq_of_lt h0, Nat.mod_eq_of_lt h1, hyu, hday, hyl, hmon]
  simp [hdayle]

/-- C6 amended: on a 2-byte input, `TypeGDate::parse` fails on the sentinel
0xFFFF with first context "invalid check"; otherwise it succeeds exactly
when the month is in `0..=12` or equals 15 (month 0 is accepted — this is
the only change the counterexample forces) and the year is in `0..=99` or
equals 127; the 5-bit day is always in `0..=31`, and on success the decoded
fields are day = `b0 % 32`, month = `b1 % 16`, year = `b0/32 + (b1/16)*8`. -/
theorem c6_amended (b0 b1 : Nat) (h0 : b0 < 256) (h1 : b1 < 256) :
    (b0 = 0xFF ∧ b1 = 0xFF → TypeGDate.parse [b0, b1] = .error (.fail ["invalid check"])) ∧
    b0 % 32 ≤ 31 ∧
    ((TypeGDate.parse [b0, b1]).isOk = true ↔
      ¬(b0 = 0xFF ∧ b1 = 0xFF) ∧ (b1 % 16 ≤ 12 ∨ b1 % 16 = 15) ∧
        (b0 / 32 + b1 / 16 * 8 ≤ 99 ∨ b0 / 32 + b1 / 16 * 8 = 127)) ∧
    (¬(b0 = 0xFF ∧ b1 = 0xFF) → (b1 % 16 ≤ 12 ∨ b1 % 16 = 15) →
      (b0 / 32 + b1 / 16 * 8 ≤ 99 ∨ b0 / 32 + b1 / 16 * 8 = 127) →
      TypeGDate.parse [b0, b1] = .ok (⟨b0 % 32, b1 % 16, b0 / 32 + b1 / 16 * 8⟩, [])) := by
  have hdmy := parse_dmy_eval b0 b1 h0 h1
  have hparse : ∀ r, parse_dmy b0 b1 = r →
      TypeGDate.parse [b0, b1] =
        (match r with
         | .error e => .error e
         | .ok (d, m, y) => .ok (⟨d, m, y⟩, [])) := by
    intro r hr
    simp only [TypeGDate.parse, hr]
  refine ⟨?_, by omega, ?_, ?_⟩
  · rintro ⟨rfl, rfl⟩
    rfl
  · rw [hparse _ hdmy]
    split_ifs with hs hm hy
    all_goals simp_all [Except.isOk, Except.toBool]
  · intro hs hm hy
    rw [hparse _ hdmy]
    rw [if_neg hs, if_neg (not_not_intro hm), if_neg (not_not_intro hy)]

/-- C6 amended, witness: the libmbus `allmess_cf50` vector 8C 11 and the
accepted month-0 input 00 00. -/
theorem c6_amended_witness :
    TypeGDate.parse [0x8C, 0x11] = .ok (⟨12, 1, 12⟩, []) ∧
    TypeGDate.parse [0x00, 0x00] = .ok (⟨0, 0, 0⟩, []) := by
  refine ⟨?_, ?_⟩
  · have h := (c6_amended 0x8C 0x11 (by decide) (by decide)).2.2.2
    simpa using h (by decide) (by decide) (by decide)
  · have h := (c6_amended 0x00 0x00 (by decide) (by decide)).2.2.2
    simpa using h (by decide) (by decide) (by decide)

/-! ## Claim C9 -/

/-- The DIFE loop succeeds on any chain of at most `10 − i + 1` DIFE bytes
whose last byte alone has the extension bit clear, leaving exactly the bytes
after the chain. -/
theorem difeLoop_ok (body : List Nat) (last : Nat) (rest : List Nat) :
    ∀ (i s t d : Nat),
      (∀ b ∈ body, u8bit 7 b = true) → u8bit 7 last = false →
      i + body.length ≤ 10 →
      ∃ out, difeLoop (body ++ last :: rest) i s t d = .ok (out, rest) := by
  induction body with
  | nil =>
    intro i s t d _ hlast hle
    simp only [List.nil_append, difeLoop]
    rw [if_neg (by omega : ¬i > 10), hlast]
    split
    · exact ⟨_, rfl⟩
    · rw [if_neg (by simp)]
      exact ⟨_, rfl⟩
  | cons b bs ih =>
    intro i s t d hbody hlast hle
    have hb : u8bit 7 b = true := hbody b (by simp)
    simp only [List.cons_append, difeLoop]
    rw [if_neg (by simp at hle; omega : ¬i > 10), hb]
    rw [if_neg (by simp)]
    rw [if_pos rfl]
    exact ih (i + 1) _ _ _ (fun x hx => hbody x (by simp [hx])) hlast
      (by simp at hle ⊢; omega)

/-- C9: `DataInfoBlock::parse` accepts DIFE extension chains of at most 10
DIFEs — for any DIF with a valid raw-type nibble and the extension bit set,
followed by up to 10 DIFE bytes of which exactly the last has its extension
bit clear, the parse succeeds and consumes exactly the chain; a DIF followed
by 11 DIFEs whose extension bits stay set through the tenth fails with the
assertion "Packet has more than 10 DIFEs!". -/
theorem c9_dife_chain_limit :
    (∀ (dif : Nat) (body : List Nat) (last : Nat) (rest : List Nat) (rt : RawDataType),
      u8bit 7 dif = true →
      RawDataType.ofNibble (u8bits 0 4 dif) = some rt →
      (∀ b ∈ body, u8bit 7 b = true) →
      u8bit 7 last = false →
      body.length ≤ 9 →
      ∃ dib, DataInfoBlock.parse (dif :: body ++ last :: rest) = .ok (dib, rest)) ∧
    DataInfoBlock.parse (0x82 :: List.replicate 11 0x80)
      = .error (.assertFail "Packet has more than 10 DIFEs!") := by
  constructor
  · intro dif body last rest rt hext hnib hbody hlast hlen
    have hstep : DataInfoBlock.parse (dif :: body ++ last :: rest)
        = (match RawDataType.ofNibble (u8bits 0 4 dif) with
           | none => .error (.fail ["raw data type", "DIF byte"])
           | some raw_type =>
             if u8bit 7 dif then
               match difeLoop (body ++ last :: rest) 1 (u8bits 6 1 dif) 0 0 with
               | .error e => .error e
               | .ok ((st2, ta2, de2, ob2), rest2) =>
                 .ok (⟨raw_type, DataFunction.ofBits (u8bits 4 2 dif), st2, ta2, de2, ob2⟩,
                   rest2)
             else
               .ok (⟨raw_type, DataFunction.ofBits (u8bits 4 2 dif), u8bits 6 1 dif, 0, 0,
                 false⟩, body ++ last :: rest)) := rfl
    obtain ⟨⟨s, t, d, ob⟩, hout⟩ :=
      difeLoop_ok body last rest 1 (u8bits 6 1 dif) 0 0 hbody hlast (by omega)
    rw [hstep, hnib, hext, hout]
    exact ⟨_, rfl⟩
  · rfl

/-- C9 witness: a DIF with two DIFEs parses, consuming exactly the chain. -/
theorem c9_witness :
    ∃ dib, DataInfoBlock.parse [0x82, 0x80, 0x00, 0x99] = .ok (dib, [0x99]) := by
  have h := c9_dife_chain_limit.1 0x82 [0x80] 0x00 [0x99] (.Binary 2)
    (by decide) (by decide) (by intro b hb; simp at hb; subst hb; decide) (by decide)
    (by decide)
  simpa using h

/-! ## Claim C7 -/

/-- The decimal value of one BCD byte's digit pair (spec §4.6: "accumulate
little-endian-nibble-wise"). -/
def bcdPairValue (b : Nat) : Int := ((u8bits 4 4 b * 10 + u8bits 0 4 b : Nat) : Int)

/-- A strict BCD byte: both nibbles are decimal digits. -/
def goodBCDByte (b : Nat) : Prop := u8bits 4 4 b < 10 ∧ u8bits 0 4 b < 10

theorem bcdCombine_eq_foldr (l : List Int) :
    bcdCombine l = l.foldr (fun v acc => v + 100 * acc) 0 := by
  have hfun : (fun (x y : Int) => y * 100 + x) = fun v acc => v + 100 * acc := by
    funext x y; ring
  induction l using List.reverseRecOn with
  | nil => rfl
  | append_singleton xs x _ =>
    unfold bcdCombine
    rw [List.reverse_append]
    simp only [List.reverse_cons, List.reverse_nil, List.nil_append, List.singleton_append]
    rw [List.foldl_reverse, List.foldr_append]
    simp only [List.foldr_cons, List.foldr_nil]
    rw [hfun]
    norm_num

theorem parse_bcd_initial_ok (bytes rest : List Nat)
    (h : ∀ b ∈ bytes, goodBCDByte b) :
    parse_bcd_initial bytes.length (bytes ++ rest) = .ok (bytes.map bcdPairValue, rest) := by
  induction bytes with
  | nil => rfl
  | cons b bs ih =>
    have hb := h b (by simp)
    have hstep : parse_bcd_initial (bs.length + 1) (b :: (bs ++ rest))
        = (if u8bits 4 4 b < 10 ∧ u8bits 0 4 b < 10 then
            match parse_bcd_initial bs.length (bs ++ rest) with
            | .error e => .error e
            | .ok (vs, r0) => .ok (((u8bits 4 4 b * 10 + u8bits 0 4 b : Nat) : Int) :: vs, r0)
          else .error (.fail ["initial bytes"])) := rfl
    simp only [List.length_cons, List.cons_append]
    rw [hstep, ih (fun x hx => h x (by simp [hx])), if_pos (And.intro hb.1 hb.2)]
    simp [bcdPairValue]

theorem parse_bcd_initial_inv (k : Nat) :
    ∀ (input : List Nat) (vals : List Int) (r : List Nat),
      parse_bcd_initial k input = .ok (vals, r) →
      ∃ bytes, input = bytes ++ r ∧ bytes.length = k ∧ (∀ b ∈ bytes, goodBCDByte b) := by
  induction k with
  | zero =>
    intro input vals r h
    cases h
    exact ⟨[], rfl, rfl, by simp⟩
  | succ k ih =>
    intro input vals r h
    match input with
    | [] => cases h
    | b :: rest =>
      have hstep : parse_bcd_initial (k + 1) (b :: rest)
          = (if u8bits 4 4 b < 10 ∧ u8bits 0 4 b < 10 then
              match parse_bcd_initial k rest with
              | .error e => .error e
              | .ok (vs, r0) => .ok (((u8bits 4 4 b * 10 + u8bits 0 4 b : Nat) : Int) :: vs, r0)
            else .error (.fail ["initial bytes"])) := rfl
      rw [hstep] at h
      split at h
      case isTrue hb =>
        cases hrec : parse_bcd_initial k rest with
        | error e => rw [hrec] at h; cases h
        | ok p =>
          obtain ⟨vs, r0⟩ := p
          rw [hrec] at h
          have h2 : (((u8bits 4 4 b * 10 + u8bits 0 4 b : Nat) : Int) :: vs, r0)
              = (vals, r) := Except.ok.inj h
          have hr : r0 = r := congrArg Prod.snd h2
          subst hr
          obtain ⟨bytes, hin, hlen, hgood⟩ := ih rest vs r0 hrec
          refine ⟨b :: bytes, by simp [hin], by simp [hlen], ?_⟩
          intro x hx
          rcases List.mem_cons.mp hx with rfl | hx
          · exact hb
          · exact hgood x hx
      case isFalse hb => cases h

/-- C7: for `1 ≤ n ≤ 9` (an `n`-byte input is written `init ++ [last]` with
`n = init.length + 1`), `parse_bcd` consumes exactly `n` bytes; it succeeds
exactly when every nibble is a decimal digit except the high nibble of the
last byte, which may also be 0xF; on success it accumulates the digit pairs
little-endian-byte-wise (the high sign nibble read as 0) and negates the
result when the sign nibble was 0xF; in particular `23 F1` with `n = 2`
decodes to −123. -/
theorem c7_parse_bcd (init : List Nat) (last : Nat) (rest : List Nat)
    (hn : init.length + 1 ≤ 9) :
    ((∀ b ∈ init, goodBCDByte b) → (u8bits 4 4 last = 0xF ∨ u8bits 4 4 last < 10) →
      u8bits 0 4 last < 10 →
      parse_bcd (init.length + 1) (init ++ last :: rest)
        = .ok ((if u8bits 4 4 last = 0xF then (-1 : Int) else 1) *
            (init.map bcdPairValue ++
              [(((if u8bits 4 4 last = 0xF then 0 else u8bits 4 4 last) * 10 +
                  u8bits 0 4 last : Nat) : Int)]).foldr
              (fun v acc => v + 100 * acc) 0, rest)) ∧
    (∀ v r, parse_bcd (init.length + 1) (init ++ last :: rest) = .ok (v, r) →
      (∀ b ∈ init, goodBCDByte b) ∧ (u8bits 4 4 last = 0xF ∨ u8bits 4 4 last < 10) ∧
        u8bits 0 4 last < 10 ∧ r = rest) ∧
    parse_bcd 2 [0x23, 0xF1] = .ok (-123, []) := by
  have hb0 : ¬init.length + 1 = 0 := by omega
  have hb9 : ¬init.length + 1 > 9 := by omega
  refine ⟨?_, ?_, rfl⟩
  · intro hgood hhi hlo
    have hstep : parse_bcd_core (init.length + 1) (init ++ last :: rest)
        = (if (u8bits 4 4 last = 15 ∨ u8bits 4 4 last < 10) ∧ u8bits 0 4 last < 10 then
            .ok ((if u8bits 4 4 last = 15 then
                -(bcdCombine (List.map bcdPairValue init ++
                  [(((if u8bits 4 4 last = 15 then 0 else u8bits 4 4 last) * 10 +
                      u8bits 0 4 last : Nat) : Int)]))
              else
                bcdCombine (List.map bcdPairValue init ++
                  [(((if u8bits 4 4 last = 15 then 0 else u8bits 4 4 last) * 10 +
                      u8bits 0 4 last : Nat) : Int)])), rest)
          else .error (.fail ["final byte"])) := by
      unfold parse_bcd_core
      rw [if_neg hb0, if_neg hb9, Nat.add_sub_cancel,
        parse_bcd_initial_ok init (last :: rest) hgood]
    unfold parse_bcd
    rw [ctxLabel_ok, hstep, if_pos (And.intro hhi hlo)]
    by_cases h15 : u8bits 4 4 last = 15
    · simp only [h15, if_pos rfl, bcdCombine_eq_foldr]
      norm_num
    · simp only [if_neg h15, bcdCombine_eq_foldr]
      norm_num
  · intro v r h
    unfold parse_bcd at h
    rw [ctxLabel_ok] at h
    unfold parse_bcd_core at h
    rw [if_neg hb0, if_neg hb9, Nat.add_sub_cancel] at h
    cases hpi : parse_bcd_initial init.length (init ++ last :: rest) with
    | error e => rw [hpi] at h; cases h
    | ok p =>
      obtain ⟨vals, input1⟩ := p
      rw [hpi] at h
      obtain ⟨bytes, hin, hlen, hgood⟩ := parse_bcd_initial_inv init.length _ vals input1 hpi
      obtain ⟨hb, hrest⟩ := List.append_inj hin.symm hlen
      subst hb
      subst hrest
      have h2 : (if (u8bits 4 4 last = 15 ∨ u8bits 4 4 last < 10) ∧ u8bits 0 4 last < 10 then
            (.ok ((if u8bits 4 4 last = 15 then
                -(bcdCombine (vals ++
                  [(((if u8bits 4 4 last = 15 then 0 else u8bits 4 4 last) * 10 +
                      u8bits 0 4 last : Nat) : Int)]))
              else
                bcdCombine (vals ++
                  [(((if u8bits 4 4 last = 15 then 0 else u8bits 4 4 last) * 10 +
                      u8bits 0 4 last : Nat) : Int)])), rest) : MBRes (Int × List Nat))
          else .error (.fail ["final byte"])) = .ok (v, r) := h
      by_cases hc : (u8bits 4 4 last = 15 ∨ u8bits 4 4 last < 10) ∧ u8bits 0 4 last < 10
      · rw [if_pos hc] at h2
        have hr : r = rest := by
          have := Except.ok.inj h2
          exact (congrArg Prod.snd this).symm
        exact ⟨hgood, hc.1, hc.2, hr⟩
      · rw [if_neg hc] at h2
        cases h2

/-- C7 witness: the spec's concrete example 23 F1 (with a trailing byte to
show exact consumption), via the general theorem. -/
theorem c7_parse_bcd_witness :
    parse_bcd 2 [0x23, 0xF1, 0x99] = .ok (-123, [0x99]) := by
  have h := (c7_parse_bcd [0x23] 0xF1 [0x99] (by norm_num)).1
    (by intro b hb; simp at hb; subst hb; constructor <;> decide)
    (by left; rfl) (by decide)
  simpa using h

/-! ## Claim C8 -/

theorem foldl_wadd (t : List Nat) : ∀ x : Nat,
    List.foldl (fun acc b => wadd acc b) (x % 256) t = (x + t.sum) % 256 := by
  induction t with
  | nil => intro x; simp
  | cons b t ih =>
    intro x
    have h1 : wadd (x % 256) b = (x + b) % 256 := by unfold wadd; omega
    simp only [List.foldl_cons, h1]
    rw [ih (x + b)]
    congr 1
    simp [List.sum_cons]
    ring

theorem checksum8_eq (l : List Nat) : checksum8 l = l.sum % 256 := by
  cases l with
  | nil => rfl
  | cons h t =>
    show List.foldl (fun acc b => wadd acc b) (h % 256) t = (h :: t).sum % 256
    rw [foldl_wadd t h]
    simp

theorem wadd_checksum (l : List Nat) (c a : Nat) :
    wadd (wadd (checksum8 l) (c % 256)) (a % 256) = (c + a + l.sum) % 256 := by
  rw [checksum8_eq]
  unfold wadd
  omega

/-- `ctxLabel` is invisible on successful results. -/
theorem ctxLabel_ok_eval (label : String) (x : α) : ctxLabel label (.ok x) = .ok x := rfl

/-- `parse_fixed` only ever produces `Short` packets, never `Long`. -/
theorem parse_fixed_no_long (input : List Nat) (c : Control) (a : Nat) (msg : MBusMessage)
    (rest : List Nat) : parse_fixed input ≠ .ok (.Long c a msg, rest) := by
  intro h
  unfold parse_fixed at h
  rcases input with _ | ⟨c0, r1⟩
  · cases h
  · conv at h => lhs; whnf
    cases hc : ctxLabel "control byte" (Control.parseByte c0) with
    | error e => rw [hc] at h; cases h
    | ok control =>
      rw [hc] at h
      conv at h => lhs; whnf
      rcases r1 with _ | ⟨a0, r2⟩
      · cases h
      · conv at h => lhs; whnf
        rcases r2 with _ | ⟨ck, r3⟩
        · cases h
        · conv at h => lhs; whnf
          rcases r3 with _ | ⟨t, r4⟩
          · cases h
          · replace h : (if ¬(t % 256 = 0x16) then
                  (.error (.fail ["frame tail"]) : MBRes (Packet × List Nat))
                else if ¬(ck % 256 = wadd (c0 % 256) (a0 % 256)) then
                  .error (.fail ["checksum verify"])
                else .ok (.Short control (a0 % 256), r4))
                = .ok (.Long c a msg, rest) := h
            split at h
            · cases h
            · split at h
              · cases h
              · exact Packet.noConfusion (congrArg Prod.fst (Except.ok.inj h))

/-- C8: (1) every byte buffer that `Packet::parse` accepts as a long frame
decomposes as `68 L L 68 control address payload checksum 16 rest` with the
payload exactly `L − 2` bytes long and the stored checksum byte equal to
`(control + address + Σ payload) mod 256`; (2) whenever the recomputed sum
differs from the stored checksum byte (all other framing being in order),
the parse fails with the "checksum verify" context. -/
theorem c8_long_frame_checksum :
    (∀ (input : List Nat) (c : Control) (a : Nat) (msg : MBusMessage) (rest : List Nat),
      (∀ b ∈ input, b < 256) →
      Packet.parse input = .ok (.Long c a msg, rest) →
      ∃ (L cb ck : Nat) (payload : List Nat),
        input = 0x68 :: L :: L :: 0x68 :: cb :: a :: (payload ++ ck :: 0x16 :: rest) ∧
        Control.parseByte cb = .ok c ∧
        2 ≤ L ∧ payload.length = L - 2 ∧
        ck = (cb + a + payload.sum) % 256) ∧
    (∀ (L cb ab ck : Nat) (c : Control) (payload rest : List Nat),
      Control.parseByte cb = .ok c → 2 ≤ L → L ≤ 255 → payload.length = L - 2 →
      ck % 256 ≠ (cb + ab + payload.sum) % 256 →
      Packet.parse (0x68 :: L :: L :: 0x68 :: cb :: ab :: (payload ++ ck :: 0x16 :: rest))
        = .error (.fail ["checksum verify", "long frame header"])) := by
  constructor
  · intro input c a msg rest hbytes h
    match input with
    | [] => cases h
    | b :: r0 =>
      have hb : b < 256 := hbytes b (by simp)
      have h1 : (if b % 256 = 0x68 then
            ctxLabel "long frame header" (parse_variable r0)
          else if b % 256 = 0x10 then ctxLabel "short frame header" (parse_fixed r0)
          else if b % 256 = 0xE5 then .ok (.Ack, r0)
          else .error (.fail [])) = .ok (.Long c a msg, rest) := h
      by_cases h68 : b % 256 = 0x68
      case neg =>
        rw [if_neg h68] at h1
        by_cases h10 : b % 256 = 0x10
        · rw [if_pos h10] at h1
          rw [ctxLabel_ok] at h1
          exact absurd h1 (parse_fixed_no_long r0 c a msg rest)
        · rw [if_neg h10] at h1
          by_cases hE5 : b % 256 = 0xE5
          · rw [if_pos hE5] at h1
            cases h1
          · rw [if_neg hE5] at h1
            cases h1
      case pos =>
        rw [if_pos h68] at h1
        have hbv : b = 0x68 := by omega
        subst hbv
        rw [ctxLabel_ok] at h1
        match r0 with
        | [] => cases h1
        | L0 :: r1 =>
          have hL0 : L0 < 256 := hbytes L0 (by simp)
          have hL0m : L0 % 256 = L0 := Nat.mod_eq_of_lt hL0
          have h2 : pv_len L0 r1 = .ok (.Long c a msg, rest) := by
            have : parse_variable (L0 :: r1) = pv_len (L0 % 256) r1 := rfl
            rw [this, hL0m] at h1
            exact h1
          match r1 with
          | [] => cases h2
          | L1 :: r2 =>
            have hL1 : L1 < 256 := hbytes L1 (by simp)
            have h3 : (if ¬(L1 % 256 = L0) then
                  (.error (.fail ["length confirmation"]) : MBRes (Packet × List Nat))
                else pv_marker L0 r2) = .ok (.Long c a msg, rest) := h2
            by_cases hLL : L1 % 256 = L0
            case neg => rw [if_pos (by exact hLL)] at h3; cases h3
            case pos =>
              rw [if_neg (not_not_intro hLL)] at h3
              have hL1v : L1 = L0 := by omega
              subst hL1v
              match r2 with
              | [] => cases h3
              | m :: r3 =>
                have hm : m < 256 := hbytes m (by simp)
                have h4 : (if ¬(m % 256 = 0x68) then
                      (.error (.fail ["frame marker"]) : MBRes (Packet × List Nat))
                    else pv_control L1 r3) = .ok (.Long c a msg, rest) := h3
                by_cases hmm : m % 256 = 0x68
                case neg => rw [if_pos (by exact hmm)] at h4; cases h4
                case pos =>
                  rw [if_neg (not_not_intro hmm)] at h4
                  have hmv : m = 0x68 := by omega
                  subst hmv
                  match r3 with
                  | [] => cases h4
                  | cb :: r4 =>
                    have h5 : (match ctxLabel "control byte" (Control.parseByte cb) with
                        | .error e => (.error e : MBRes (Packet × List Nat))
                        | .ok control => pv_address L1 cb control r4)
                        = .ok (.Long c a msg, rest) := h4
                    cases hc : Control.parseByte cb with
                    | error e =>
                      rw [show ctxLabel "control byte" (Control.parseByte cb)
                          = ctxLabel "control byte" (.error e) from by rw [hc]] at h5
                      cases he : ctxLabel "control byte" (.error e) with
                      | error e2 => rw [he] at h5; cases h5
                      | ok x =>
                        exfalso
                        cases e <;> simp [ctxLabel] at he
                    | ok control =>
                      rw [show ctxLabel "control byte" (Control.parseByte cb)
                          = .ok control from by rw [hc]; rfl] at h5
                      match r4 with
                      | [] => cases h5
                      | ab :: r5 =>
                        have hab : ab < 256 := by
                          apply hbytes
                          simp
                        have h6 : pv_body L1 cb control ab r5
                            = .ok (.Long c a msg, rest) := h5
                        unfold pv_body at h6
                        split at h6
                        · cases h6
                        · split at h6
                          · cases h6
                          · rename_i hguard hL2
                            rw [not_lt] at hguard
                            have hL2' : 2 ≤ L1 := by omega
                            -- the checksum/tail stage
                            have hsplit := List.take_append_drop (L1 - 2) r5
                            have htklen : (r5.take (L1 - 2)).length = L1 - 2 := by
                              rw [List.length_take]
                              omega
                            cases hdrop : r5.drop (L1 - 2) with
                            | nil => rw [hdrop] at h6; cases h6
                            | cons ck r6 =>
                              cases r6 with
                              | nil => rw [hdrop] at h6; cases h6
                              | cons tl r7 =>
                                have hck : ck < 256 := by
                                  apply hbytes
                                  have : ck ∈ r5 := by
                                    rw [← hsplit, hdrop]
                                    simp
                                  simp [this]
                                have htl : tl < 256 := by
                                  apply hbytes
                                  have : tl ∈ r5 := by
                                    rw [← hsplit, hdrop]
                                    simp
                                  simp [this]
                                rw [hdrop] at h6
                                have h7 : (if ¬(tl % 256 = 0x16) then
                                      (.error (.fail ["frame tail"]) : MBRes (Packet × List Nat))
                                    else if ¬(ck % 256 = wadd (wadd (checksum8 (r5.take (L1 - 2)))
                                        (cb % 256)) (ab % 256)) then
                                      .error (.fail ["checksum verify"])
                                    else match MBusMessage.parse (r5.take (L1 - 2)) with
                                      | .error e => .error e
                                      | .ok (message, _) =>
                                        .ok (.Long control (ab % 256) message, r7))
                                    = .ok (.Long c a msg, rest) := h6
                                split at h7
                                · cases h7
                                · split at h7
                                  · cases h7
                                  · rename_i htl16 hcksum
                                    rw [not_not] at htl16 hcksum
                                    cases hmp : MBusMessage.parse (r5.take (L1 - 2)) with
                                    | error e => rw [hmp] at h7; cases h7
                                    | ok p =>
                                      obtain ⟨message, leftover⟩ := p
                                      rw [hmp] at h7
                                      have hinj := Except.ok.inj h7
                                      have hpkt : Packet.Long control (ab % 256) message
                                          = .Long c a msg := congrArg Prod.fst hinj
                                      have hrest : r7 = rest := congrArg Prod.snd hinj
                                      have hctrl : control = c := by
                                        cases hpkt; rfl
                                      have haddr : ab % 256 = a := by
                                        cases hpkt; rfl
                                      have hav : ab = a := by omega
                                      refine ⟨L1, cb, ck, r5.take (L1 - 2), ?_, ?_, hL2', ?_, ?_⟩
                                      · rw [← hav, ← hrest]
                                        have htlv : tl = 0x16 := by omega
                                        rw [← htlv]
                                        simp only [List.cons.injEq, true_and]
                                        rw [← hdrop]
                                        exact hsplit.symm
                                      · rw [hc, hctrl]
                                      · exact htklen
                                      · rw [wadd_checksum] at hcksum
                                        rw [← hav]
                                        omega
  · intro L cb ab ck c payload rest hctrl hL2 hL255 hlen hck
    have hLm : L % 256 = L := Nat.mod_eq_of_lt (by omega)
    suffices h : parse_variable (L :: L :: 0x68 :: cb :: ab :: (payload ++ ck :: 0x16 :: rest))
        = .error (.fail ["checksum verify"]) by
      show ctxLabel "long frame header"
          (parse_variable (L :: L :: 0x68 :: cb :: ab :: (payload ++ ck :: 0x16 :: rest)))
        = .error (.fail ["checksum verify", "long frame header"])
      rw [h]
      rfl
    show pv_len (L % 256) (L :: 0x68 :: cb :: ab :: (payload ++ ck :: 0x16 :: rest))
      = .error (.fail ["checksum verify"])
    rw [hLm]
    have h2 : pv_len L (L :: 0x68 :: cb :: ab :: (payload ++ ck :: 0x16 :: rest))
        = pv_marker L (0x68 :: cb :: ab :: (payload ++ ck :: 0x16 :: rest)) := by
      show (if ¬(L % 256 = L) then (.error (.fail ["length confirmation"])
          : MBRes (Packet × List Nat))
        else pv_marker L (0x68 :: cb :: ab :: (payload ++ ck :: 0x16 :: rest))) = _
      rw [if_neg (not_not_intro hLm)]
    have h3 : pv_marker L (0x68 :: cb :: ab :: (payload ++ ck :: 0x16 :: rest))
        = pv_control L (cb :: ab :: (payload ++ ck :: 0x16 :: rest)) := rfl
    have h4 : pv_control L (cb :: ab :: (payload ++ ck :: 0x16 :: rest))
        = pv_address L cb c (ab :: (payload ++ ck :: 0x16 :: rest)) := by
      show (match ctxLabel "control byte" (Control.parseByte cb) with
          | .error e => (.error e : MBRes (Packet × List Nat))
          | .ok control => pv_address L cb control (ab :: (payload ++ ck :: 0x16 :: rest)))
        = _
      rw [hctrl]
      rfl
    have h5 : pv_address L cb c (ab :: (payload ++ ck :: 0x16 :: rest))
        = pv_body L cb c ab (payload ++ ck :: 0x16 :: rest) := rfl
    have h6 : pv_body L cb c ab (payload ++ ck :: 0x16 :: rest)
        = pv_check cb c ab payload (ck :: 0x16 :: rest) := by
      unfold pv_body
      rw [if_neg (by simp [hlen]; omega), if_neg (by omega)]
      rw [List.take_left' hlen, List.drop_left' hlen]
    have h7 : pv_check cb c ab payload (ck :: 0x16 :: rest)
        = .error (.fail ["checksum verify"]) := by
      have hstep : pv_check cb c ab payload (ck :: 0x16 :: rest)
          = (if ¬(ck % 256 = wadd (wadd (checksum8 payload) (cb % 256)) (ab % 256)) then
              (.error (.fail ["checksum verify"]) : MBRes (Packet × List Nat))
            else match MBusMessage.parse payload with
              | .error e => .error e
              | .ok (message, _) => .ok (.Long c (ab % 256) message, rest)) := rfl
      rw [hstep, wadd_checksum, if_pos hck]
    rw [h2, h3, h4, h5, h6, h7]

/-- C8 witness: a complete CI-0x5C long frame parses (and decomposes per
the theorem), and flipping its checksum byte yields the "checksum verify"
failure. -/
theorem c8_witness :
    (∃ (L cb ck : Nat) (payload : List Nat),
      ([0x68, 3, 3, 0x68, 0x40, 5, 0x5C, 0xA1, 0x16] : List Nat)
        = 0x68 :: L :: L :: 0x68 :: cb :: 5 :: (payload ++ ck :: 0x16 :: []) ∧
      Control.parseByte cb = .ok (.Primary false .ResetRemoteLink) ∧
      2 ≤ L ∧ payload.length = L - 2 ∧
      ck = (cb + 5 + payload.sum) % 256) ∧
    Packet.parse [0x68, 3, 3, 0x68, 0x40, 5, 0x5C, 0xA2, 0x16]
      = .error (.fail ["checksum verify", "long frame header"]) := by
  constructor
  · exact c8_long_frame_checksum.1 [0x68, 3, 3, 0x68, 0x40, 5, 0x5C, 0xA1, 0x16]
      (.Primary false .ResetRemoteLink) 5 .SynchroniseAction []
      (by intro b hb; fin_cases hb <;> omega) rfl
  · exact c8_long_frame_checksum.2 3 0x40 5 0xA2 (.Primary false .ResetRemoteLink)
      [0x5C] [] rfl (by omega) (by omega) rfl (by decide)
